import Mathlib

/-!
Shallow embedding of the string-physics core and workspace store of the
infinite-canvas sticky-note application.

The repository file `src/components/workspace/StringConnection.tsx` contains two
alternate implementations of the hanging-string simulation:
an explicit-velocity variant (namespace `V1`, constants `NUM_POINTS = 12`,
`GRAVITY = 0.5`, `DAMPING = 0.98`, `STIFFNESS = 0.8`, 3 constraint passes) and a
Verlet variant (namespace `V2`, constants `NUM_SEGMENTS = 10`, `GRAVITY = 0.8`,
`ITERATIONS = 5`, inline damping `0.98`).  JavaScript numbers are modelled as
rationals; the environment function `Math.sqrt` is passed explicitly as a
function argument `sqrt : ℚ → ℚ`, and `ratSqrt` is a concrete instance that is
exact on rationals whose numerator and denominator are perfect squares.

The workspace store (`useWorkspace`) is modelled as a record `Workspace` with
pure state-transition functions for each hook operation.
-/

namespace ICNotes

/-- Two-dimensional point; the `Position` interface of the workspace types. -/
structure Position where
  x : ℚ
  y : ℚ
deriving DecidableEq, Repr

/-- Note colors (`StickyColor` union type). -/
inductive StickyColor where
  | yellow
  | pink
  | mint
  | blue
  | orange
  | purple
deriving DecidableEq, Repr

/-- The `StickyNote` interface. -/
structure StickyNote where
  id : String
  content : String
  position : Position
  color : StickyColor
  width : ℚ
  height : ℚ
  zIndex : ℚ
deriving DecidableEq, Repr

/-- The `Connection` interface. -/
structure Connection where
  id : String
  fromNoteId : String
  toNoteId : String
deriving DecidableEq, Repr

/-- Source `getNoteCenter`: center of a note, `position + (width/2, height/2)`. -/
def getNoteCenter (note : StickyNote) : Position :=
  { x := note.position.x + note.width / 2
  , y := note.position.y + note.height / 2 }

/-- Integer square root by bounded search (kernel-reducible, unlike the
well-founded `Nat.sqrt`): the largest `k ≤ n` with `k * k ≤ n`. -/
def isqrt (n : ℕ) : ℕ :=
  ((List.range (n + 1)).filter (fun k => k * k ≤ n)).length - 1

/-- A concrete stand-in for `Math.sqrt` on rationals: exact whenever the
numerator and denominator are perfect squares (in particular on `d * d` for the
axis-aligned configurations used as concrete inputs), and `ratSqrt 0 = 0`. -/
def ratSqrt (q : ℚ) : ℚ :=
  (isqrt q.num.toNat : ℚ) / (isqrt q.den : ℚ)

/-- Indexed in-place map: `mapIdxFrom f i [a0, a1, ...]` replaces the element at
overall index `i + j` by `f (i + j) a`, modelling a JS `for` loop that assigns
`pts[i] = f(i, pts[i])` for every index. -/
def mapIdxFrom (f : ℕ → α → α) : ℕ → List α → List α
  | _, [] => []
  | i, a :: l => f i a :: mapIdxFrom f (i + 1) l

/-- One left-to-right sweep over adjacent pairs of `carry :: rest`, updating
both members of each pair in place: the JS loop
`for i in 0..len-2: (pts[i], pts[i+1]) = step(pts[i], pts[i+1])`. -/
def chainPass (step : α → α → α × α) : α → List α → List α
  | carry, [] => [carry]
  | carry, b :: l => (step carry b).1 :: chainPass step (step carry b).2 l

/-- Fallible variant of `chainPass`: the whole sweep fails if any pair update
fails (used to show the relaxation sweep never divides by zero). -/
def chainPassM (step : α → α → Option (α × α)) : α → List α → Option (List α)
  | carry, [] => some [carry]
  | carry, b :: l =>
    match step carry b with
    | none => none
    | some q => (chainPassM step q.2 l).map (fun tail => q.1 :: tail)

namespace V1

/-- Particle of the explicit-velocity variant (`PhysicsPoint`). -/
structure PhysicsPoint where
  x : ℚ
  y : ℚ
  vx : ℚ
  vy : ℚ
  pinned : Bool
deriving DecidableEq, Repr

def NUM_POINTS : ℕ := 12

def GRAVITY : ℚ := 0.5

def DAMPING : ℚ := 0.98

def STIFFNESS : ℚ := 0.8

/-- Number of constraint-relaxation passes (the literal `3` in the source's
`for (let iteration = 0; iteration < 3; iteration++)`). -/
def PASSES : ℕ := 3

/-- The init effect: `NUM_POINTS` particles with `t = i / (NUM_POINTS - 1)`,
position linearly interpolated between the two note centers, zero velocity,
pinned exactly at indices `0` and `NUM_POINTS - 1`. -/
def initPoints (start endP : Position) : List PhysicsPoint :=
  (List.range NUM_POINTS).map (fun (i : ℕ) =>
    { x := start.x + (endP.x - start.x) * ((i : ℚ) / ((NUM_POINTS : ℚ) - 1))
    , y := start.y + (endP.y - start.y) * ((i : ℚ) / ((NUM_POINTS : ℚ) - 1))
    , vx := 0
    , vy := 0
    , pinned := i == 0 || i == NUM_POINTS - 1 })

/-- Overwrite a particle's position, keeping velocity and pinned flag. -/
def setPos (p : PhysicsPoint) (pos : Position) : PhysicsPoint :=
  { p with x := pos.x, y := pos.y }

/-- Step 1 of the tick: `newPoints[0] := start`, `newPoints[NUM_POINTS-1] := endP`
(positions only). -/
def repin (start endP : Position) (pts : List PhysicsPoint) : List PhysicsPoint :=
  mapIdxFrom (fun i p =>
    if i = 0 then setPos p start
    else if i = NUM_POINTS - 1 then setPos p endP
    else p) 0 pts

/-- Body of the integration loop: `vy += GRAVITY; vx *= DAMPING; vy *= DAMPING;
x += vx; y += vy`. -/
def integratePoint (p : PhysicsPoint) : PhysicsPoint :=
  { p with
    vx := p.vx * DAMPING
  , vy := (p.vy + GRAVITY) * DAMPING
  , x := p.x + p.vx * DAMPING
  , y := p.y + (p.vy + GRAVITY) * DAMPING }

/-- Step 2 of the tick: the loop `for (let i = 1; i < NUM_POINTS - 1; i++)`
applying `integratePoint` to every interior index. -/
def integrate (pts : List PhysicsPoint) : List PhysicsPoint :=
  mapIdxFrom (fun i p => if 1 ≤ i ∧ i < NUM_POINTS - 1 then integratePoint p else p) 0 pts

/-- `totalDist`: straight-line distance between the two endpoint centers. -/
def totalDist (sqrt : ℚ → ℚ) (start endP : Position) : ℚ :=
  sqrt ((endP.x - start.x) ^ 2 + (endP.y - start.y) ^ 2)

/-- `targetDist = (totalDist / (NUM_POINTS - 1)) * 1.2`. -/
def targetDist (sqrt : ℚ → ℚ) (start endP : Position) : ℚ :=
  totalDist sqrt start endP / ((NUM_POINTS : ℚ) - 1) * 1.2

/-- One pair update of the constraint loop: with `dist` the current distance,
if `dist > 0` then `diff = (dist - targetDist) / dist`,
`offset = (dx, dy) * diff * STIFFNESS`, and each non-pinned member moves by
`offset * 0.5` (`p1` toward `p2`, `p2` toward `p1`); otherwise both are left
unchanged. -/
def relaxPair (sqrt : ℚ → ℚ) (start endP : Position) (p1 p2 : PhysicsPoint) :
    PhysicsPoint × PhysicsPoint :=
  let dx := p2.x - p1.x
  let dy := p2.y - p1.y
  let dist := sqrt (dx * dx + dy * dy)
  if 0 < dist then
    let diff := (dist - targetDist sqrt start endP) / dist
    let offsetX := dx * diff * STIFFNESS
    let offsetY := dy * diff * STIFFNESS
    ( if p1.pinned then p1 else { p1 with x := p1.x + offsetX * 0.5, y := p1.y + offsetY * 0.5 }
    , if p2.pinned then p2 else { p2 with x := p2.x - offsetX * 0.5, y := p2.y - offsetY * 0.5 } )
  else (p1, p2)

/-- One full relaxation pass over all adjacent pairs, left to right. -/
def relaxPass (sqrt : ℚ → ℚ) (start endP : Position) (pts : List PhysicsPoint) :
    List PhysicsPoint :=
  match pts with
  | [] => []
  | p :: rest => chainPass (relaxPair sqrt start endP) p rest

/-- `n` relaxation passes in sequence. -/
def relaxIter (sqrt : ℚ → ℚ) (start endP : Position) :
    ℕ → List PhysicsPoint → List PhysicsPoint
  | 0, pts => pts
  | n + 1, pts => relaxIter sqrt start endP n (relaxPass sqrt start endP pts)

/-- One simulation tick of the explicit-velocity variant: re-pin the endpoints
to the current note centers, integrate the interior particles, then run
`PASSES` relaxation passes. -/
def simulate (sqrt : ℚ → ℚ) (fromNote toNote : StickyNote)
    (pts : List PhysicsPoint) : List PhysicsPoint :=
  relaxIter sqrt (getNoteCenter fromNote) (getNoteCenter toNote) PASSES
    (integrate (repin (getNoteCenter fromNote) (getNoteCenter toNote) pts))

/-- Division-checked pair update: returns `none` if the correction branch would
divide by a zero `dist`, otherwise the same result as `relaxPair`. -/
def relaxPairChecked (sqrt : ℚ → ℚ) (start endP : Position) (p1 p2 : PhysicsPoint) :
    Option (PhysicsPoint × PhysicsPoint) :=
  let dx := p2.x - p1.x
  let dy := p2.y - p1.y
  let dist := sqrt (dx * dx + dy * dy)
  if 0 < dist then
    if dist = 0 then none
    else
      let diff := (dist - targetDist sqrt start endP) / dist
      let offsetX := dx * diff * STIFFNESS
      let offsetY := dy * diff * STIFFNESS
      some
        ( if p1.pinned then p1 else { p1 with x := p1.x + offsetX * 0.5, y := p1.y + offsetY * 0.5 }
        , if p2.pinned then p2 else { p2 with x := p2.x - offsetX * 0.5, y := p2.y - offsetY * 0.5 } )
  else some (p1, p2)

/-- Division-checked relaxation pass. -/
def relaxPassChecked (sqrt : ℚ → ℚ) (start endP : Position) (pts : List PhysicsPoint) :
    Option (List PhysicsPoint) :=
  match pts with
  | [] => some []
  | p :: rest => chainPassM (relaxPairChecked sqrt start endP) p rest

/-- Division-checked iterated relaxation. -/
def relaxIterChecked (sqrt : ℚ → ℚ) (start endP : Position) :
    ℕ → List PhysicsPoint → Option (List PhysicsPoint)
  | 0, pts => some pts
  | n + 1, pts =>
    match relaxPassChecked sqrt start endP pts with
    | none => none
    | some pts1 => relaxIterChecked sqrt start endP n pts1

/-- Division-checked simulation tick (the re-pin and integration steps contain
no division by a state-dependent quantity; the relaxation passes do). -/
def simulateChecked (sqrt : ℚ → ℚ) (fromNote toNote : StickyNote)
    (pts : List PhysicsPoint) : Option (List PhysicsPoint) :=
  relaxIterChecked sqrt (getNoteCenter fromNote) (getNoteCenter toNote) PASSES
    (integrate (repin (getNoteCenter fromNote) (getNoteCenter toNote) pts))

end V1

namespace V2

/-- Particle of the Verlet variant (`Point`): current and previous position. -/
structure Point where
  x : ℚ
  y : ℚ
  oldX : ℚ
  oldY : ℚ
  pinned : Bool
deriving DecidableEq, Repr

def NUM_SEGMENTS : ℕ := 10

def GRAVITY : ℚ := 0.8

def ITERATIONS : ℕ := 5

/-- Inline damping constant `0.98` of the Verlet integration loop. -/
def DAMPING : ℚ := 0.98

/-- The init effect: `NUM_SEGMENTS + 1` particles with `t = i / NUM_SEGMENTS`,
position linearly interpolated between the note centers, previous position
equal to the current one, pinned exactly at indices `0` and `NUM_SEGMENTS`. -/
def initPoints (start endP : Position) : List Point :=
  (List.range (NUM_SEGMENTS + 1)).map (fun (i : ℕ) =>
    { x := start.x + (endP.x - start.x) * ((i : ℚ) / (NUM_SEGMENTS : ℚ))
    , y := start.y + (endP.y - start.y) * ((i : ℚ) / (NUM_SEGMENTS : ℚ))
    , oldX := start.x + (endP.x - start.x) * ((i : ℚ) / (NUM_SEGMENTS : ℚ))
    , oldY := start.y + (endP.y - start.y) * ((i : ℚ) / (NUM_SEGMENTS : ℚ))
    , pinned := i == 0 || i == NUM_SEGMENTS })

/-- Overwrite a particle's position, keeping the previous position and flag. -/
def setPos (p : Point) (pos : Position) : Point :=
  { p with x := pos.x, y := pos.y }

/-- Step 1 of the tick: `newPoints[0] := start`, `newPoints[NUM_SEGMENTS] := endP`. -/
def repin (start endP : Position) (pts : List Point) : List Point :=
  mapIdxFrom (fun i p =>
    if i = 0 then setPos p start
    else if i = NUM_SEGMENTS then setPos p endP
    else p) 0 pts

/-- Body of the Verlet integration loop: `vx = (x - oldX) * 0.98;
vy = (y - oldY) * 0.98; oldX = x; oldY = y; x += vx; y += vy + GRAVITY`. -/
def integratePoint (p : Point) : Point :=
  { x := p.x + (p.x - p.oldX) * DAMPING
  , y := p.y + (p.y - p.oldY) * DAMPING + GRAVITY
  , oldX := p.x
  , oldY := p.y
  , pinned := p.pinned }

/-- Step 2 of the tick: the loop `for (let i = 1; i < NUM_SEGMENTS; i++)`. -/
def integrate (pts : List Point) : List Point :=
  mapIdxFrom (fun i p => if 1 ≤ i ∧ i < NUM_SEGMENTS then integratePoint p else p) 0 pts

/-- `segmentLength`: distance between the two note centers divided by
`NUM_SEGMENTS`, times `1.1` (computed outside the per-frame callback from the
same notes the tick re-pins to). -/
def segmentLength (sqrt : ℚ → ℚ) (fromNote toNote : StickyNote) : ℚ :=
  sqrt (((getNoteCenter toNote).x - (getNoteCenter fromNote).x) ^ 2 +
      ((getNoteCenter toNote).y - (getNoteCenter fromNote).y) ^ 2) /
    (NUM_SEGMENTS : ℚ) * 1.1

/-- One pair update of the constraint loop: if `dist = 0` the pair is skipped,
otherwise `diff = (segLen - dist) / dist`, `offset = (dx, dy) * diff * 0.5`,
and each non-pinned member moves by `offset` (`p1` by `-offset`, `p2` by
`+offset`). -/
def relaxPair (sqrt : ℚ → ℚ) (segLen : ℚ) (p1 p2 : Point) : Point × Point :=
  let dx := p2.x - p1.x
  let dy := p2.y - p1.y
  let dist := sqrt (dx * dx + dy * dy)
  if dist = 0 then (p1, p2)
  else
    let diff := (segLen - dist) / dist
    let offsetX := dx * diff * 0.5
    let offsetY := dy * diff * 0.5
    ( if p1.pinned then p1 else { p1 with x := p1.x - offsetX, y := p1.y - offsetY }
    , if p2.pinned then p2 else { p2 with x := p2.x + offsetX, y := p2.y + offsetY } )

/-- One full relaxation pass over all adjacent pairs, left to right. -/
def relaxPass (sqrt : ℚ → ℚ) (segLen : ℚ) (pts : List Point) : List Point :=
  match pts with
  | [] => []
  | p :: rest => chainPass (relaxPair sqrt segLen) p rest

/-- `n` relaxation passes in sequence. -/
def relaxIter (sqrt : ℚ → ℚ) (segLen : ℚ) : ℕ → List Point → List Point
  | 0, pts => pts
  | n + 1, pts => relaxIter sqrt segLen n (relaxPass sqrt segLen pts)

/-- One simulation tick of the Verlet variant. -/
def simulate (sqrt : ℚ → ℚ) (fromNote toNote : StickyNote) (pts : List Point) :
    List Point :=
  relaxIter sqrt (segmentLength sqrt fromNote toNote) ITERATIONS
    (integrate (repin (getNoteCenter fromNote) (getNoteCenter toNote) pts))

/-- Division-checked pair update: `none` if the correction branch would divide
by a zero `dist`, otherwise the same result as `relaxPair`. -/
def relaxPairChecked (sqrt : ℚ → ℚ) (segLen : ℚ) (p1 p2 : Point) :
    Option (Point × Point) :=
  let dx := p2.x - p1.x
  let dy := p2.y - p1.y
  let dist := sqrt (dx * dx + dy * dy)
  if dist = 0 then some (p1, p2)
  else
    if dist = 0 then none
    else
      let diff := (segLen - dist) / dist
      let offsetX := dx * diff * 0.5
      let offsetY := dy * diff * 0.5
      some
        ( if p1.pinned then p1 else { p1 with x := p1.x - offsetX, y := p1.y - offsetY }
        , if p2.pinned then p2 else { p2 with x := p2.x + offsetX, y := p2.y + offsetY } )

/-- Division-checked relaxation pass. -/
def relaxPassChecked (sqrt : ℚ → ℚ) (segLen : ℚ) (pts : List Point) :
    Option (List Point) :=
  match pts with
  | [] => some []
  | p :: rest => chainPassM (relaxPairChecked sqrt segLen) p rest

/-- Division-checked iterated relaxation. -/
def relaxIterChecked (sqrt : ℚ → ℚ) (segLen : ℚ) :
    ℕ → List Point → Option (List Point)
  | 0, pts => some pts
  | n + 1, pts =>
    match relaxPassChecked sqrt segLen pts with
    | none => none
    | some pts1 => relaxIterChecked sqrt segLen n pts1

/-- Division-checked simulation tick. -/
def simulateChecked (sqrt : ℚ → ℚ) (fromNote toNote : StickyNote)
    (pts : List Point) : Option (List Point) :=
  relaxIterChecked sqrt (segmentLength sqrt fromNote toNote) ITERATIONS
    (integrate (repin (getNoteCenter fromNote) (getNoteCenter toNote) pts))

end V2

/-- Resolution of a bound note identity: `notes.find(n => n.id === id)`. -/
def findNote (notes : List StickyNote) (id : String) : Option StickyNote :=
  notes.find? (fun n => n.id == id)

/-- String form of a point as it is interpolated into the SVG path. -/
def pointStr (p : Position) : String :=
  toString p.x ++ " " ++ toString p.y

/-- The `pathD` reduce: `i === 0` contributes `M x y`, every later point
appends ` L x y`. -/
def pathOf (ps : List Position) : String :=
  ps.enum.foldl (fun acc ip =>
    if ip.1 = 0 then "M " ++ pointStr ip.2 else acc ++ " L " ++ pointStr ip.2) ""

/-- Follows the spec's words: a polyline path visiting every point in order,
`M p0` then ` L pi` for each subsequent point. -/
def polylineSpec : List Position → String
  | [] => ""
  | p :: rest => rest.foldl (fun acc q => acc ++ " L " ++ pointStr q) ("M " ++ pointStr p)

/-- The two `<path>` elements produced for one connection. -/
structure RenderedPaths where
  hitPath : String
  hitWidth : ℚ
  strokePath : String
  strokeWidth : ℚ
deriving DecidableEq, Repr

namespace V1

/-- Position of a particle. -/
def posXY (p : PhysicsPoint) : Position := { x := p.x, y := p.y }

/-- The per-frame physics effect at component level: if either bound note
cannot be resolved, or the chain is empty, the effect returns without
scheduling a tick and the state is unchanged; otherwise one tick runs. -/
def stepConnection (sqrt : ℚ → ℚ) (conn : Connection) (notes : List StickyNote)
    (pts : List PhysicsPoint) : List PhysicsPoint :=
  match findNote notes conn.fromNoteId, findNote notes conn.toNoteId with
  | some f, some t => if pts.length = 0 then pts else simulate sqrt f t pts
  | _, _ => pts

/-- The render output: `null` when either note is unresolved or the chain is
empty; otherwise an invisible stroke-width-20 hit path and a visible
stroke-width 3 (hovered) or 2 path, both with geometry `pathD`. -/
def render (conn : Connection) (notes : List StickyNote) (hovered : Bool)
    (pts : List PhysicsPoint) : Option RenderedPaths :=
  match findNote notes conn.fromNoteId, findNote notes conn.toNoteId with
  | some _, some _ =>
    if pts.length = 0 then none
    else some
      { hitPath := pathOf (pts.map posXY)
      , hitWidth := 20
      , strokePath := pathOf (pts.map posXY)
      , strokeWidth := if hovered then 3 else 2 }
  | _, _ => none

end V1

namespace V2

/-- Position of a particle. -/
def posXY (p : Point) : Position := { x := p.x, y := p.y }

/-- The per-frame physics effect at component level (same guards as `V1`). -/
def stepConnection (sqrt : ℚ → ℚ) (conn : Connection) (notes : List StickyNote)
    (pts : List Point) : List Point :=
  match findNote notes conn.fromNoteId, findNote notes conn.toNoteId with
  | some f, some t => if pts.length = 0 then pts else simulate sqrt f t pts
  | _, _ => pts

/-- The render output (same structure as `V1`). -/
def render (conn : Connection) (notes : List StickyNote) (hovered : Bool)
    (pts : List Point) : Option RenderedPaths :=
  match findNote notes conn.fromNoteId, findNote notes conn.toNoteId with
  | some _, some _ =>
    if pts.length = 0 then none
    else some
      { hitPath := pathOf (pts.map posXY)
      , hitWidth := 20
      , strokePath := pathOf (pts.map posXY)
      , strokeWidth := if hovered then 3 else 2 }
  | _, _ => none

end V2

/-! ### Workspace store (`useWorkspace`) -/

/-- The mutable state of the `useWorkspace` hook that the note/connection
operations read and write (settings, viewport and sound are independent of it). -/
structure Workspace where
  notes : List StickyNote
  connections : List Connection
  connectingFrom : Option String
  maxZIndex : ℚ
deriving DecidableEq, Repr

/-- The initial hook state: no notes, no connections, no pending connection. -/
def emptyWorkspace : Workspace :=
  { notes := [], connections := [], connectingFrom := none, maxZIndex := 1 }

/-- `addNote`: appends a fresh note (`generateId` is random, so the fresh id is
a parameter) and bumps `maxZIndex`. -/
def addNote (id : String) (pos : Position) (color : StickyColor) (w : Workspace) :
    Workspace :=
  { w with
    notes := w.notes ++
      [{ id := id, content := "", position := pos, color := color
       , width := 200, height := 200, zIndex := w.maxZIndex + 1 }]
  , maxZIndex := w.maxZIndex + 1 }

/-- `updateNotePosition`. -/
def updateNotePosition (id : String) (pos : Position) (w : Workspace) : Workspace :=
  { w with notes := w.notes.map (fun note =>
      if note.id == id then { note with position := pos } else note) }

/-- `updateNoteContent`. -/
def updateNoteContent (id : String) (content : String) (w : Workspace) : Workspace :=
  { w with notes := w.notes.map (fun note =>
      if note.id == id then { note with content := content } else note) }

/-- `updateNoteColor`. -/
def updateNoteColor (id : String) (color : StickyColor) (w : Workspace) : Workspace :=
  { w with notes := w.notes.map (fun note =>
      if note.id == id then { note with color := color } else note) }

/-- `bringToFront`: bumps `maxZIndex` and raises the note. -/
def bringToFront (id : String) (w : Workspace) : Workspace :=
  { w with
    maxZIndex := w.maxZIndex + 1
  , notes := w.notes.map (fun note =>
      if note.id == id then { note with zIndex := w.maxZIndex + 1 } else note) }

/-- `deleteNote`: removes the note with this id and every connection whose
`fromNoteId` or `toNoteId` equals it. -/
def deleteNote (id : String) (w : Workspace) : Workspace :=
  { w with
    notes := w.notes.filter (fun note => note.id != id)
  , connections := w.connections.filter (fun conn =>
      conn.fromNoteId != id && conn.toNoteId != id) }

/-- `startConnection`. -/
def startConnection (noteId : String) (w : Workspace) : Workspace :=
  { w with connectingFrom := some noteId }

/-- The duplicate check of `completeConnection`: a connection between the two
ids already exists in either orientation. -/
def connectionExists (conns : List Connection) (a b : String) : Bool :=
  conns.any (fun conn =>
    (conn.fromNoteId == a && conn.toNoteId == b) ||
    (conn.fromNoteId == b && conn.toNoteId == a))

/-- `completeConnection`: the guard `if (connectingFrom && connectingFrom !==
toNoteId)` requires the pending id to be present *and truthy* — the empty
string is falsy in JS — and different from the target note; then, if no
connection between the pair exists in either orientation, append one fresh
connection; in every case clear `connectingFrom`. -/
def completeConnection (genId : String) (toNoteId : String) (w : Workspace) :
    Workspace :=
  match w.connectingFrom with
  | some fromId =>
    if fromId != "" && fromId != toNoteId then
      if !connectionExists w.connections fromId toNoteId then
        { w with
          connections := w.connections ++
            [{ id := genId, fromNoteId := fromId, toNoteId := toNoteId }]
        , connectingFrom := none }
      else { w with connectingFrom := none }
    else { w with connectingFrom := none }
  | none => { w with connectingFrom := none }

/-- `cancelConnection`. -/
def cancelConnection (w : Workspace) : Workspace :=
  { w with connectingFrom := none }

/-- `deleteConnection`. -/
def deleteConnection (id : String) (w : Workspace) : Workspace :=
  { w with connections := w.connections.filter (fun conn => conn.id != id) }

/-- One hook operation (the `generateId` results appear as payloads). -/
inductive WorkspaceOp where
  | addNote (id : String) (pos : Position) (color : StickyColor)
  | updateNotePosition (id : String) (pos : Position)
  | updateNoteContent (id : String) (content : String)
  | updateNoteColor (id : String) (color : StickyColor)
  | bringToFront (id : String)
  | deleteNote (id : String)
  | startConnection (noteId : String)
  | completeConnection (genId : String) (toNoteId : String)
  | cancelConnection
  | deleteConnection (id : String)
deriving DecidableEq, Repr

/-- State transition of one hook operation. -/
def applyOp : WorkspaceOp → Workspace → Workspace
  | .addNote id pos color, w => addNote id pos color w
  | .updateNotePosition id pos, w => updateNotePosition id pos w
  | .updateNoteContent id content, w => updateNoteContent id content w
  | .updateNoteColor id color, w => updateNoteColor id color w
  | .bringToFront id, w => bringToFront id w
  | .deleteNote id, w => deleteNote id w
  | .startConnection noteId, w => startConnection noteId w
  | .completeConnection genId toNoteId, w => completeConnection genId toNoteId w
  | .cancelConnection, w => cancelConnection w
  | .deleteConnection id, w => deleteConnection id w

/-- States reachable from the empty workspace through hook operations. -/
inductive Reachable : Workspace → Prop
  | empty : Reachable emptyWorkspace
  | step (op : WorkspaceOp) {w : Workspace} : Reachable w → Reachable (applyOp op w)

/-- Two connections link the same unordered pair of notes. -/
def sameUnorderedPair (c d : Connection) : Prop :=
  (c.fromNoteId = d.fromNoteId ∧ c.toNoteId = d.toNoteId) ∨
  (c.fromNoteId = d.toNoteId ∧ c.toNoteId = d.fromNoteId)

instance (c d : Connection) : Decidable (sameUnorderedPair c d) := by
  unfold sameUnorderedPair; infer_instance

/-- The connection-list invariant of claim `C10`: no self-loop, and no two
connections link the same unordered pair. -/
def ConnectionsOk (conns : List Connection) : Prop :=
  (∀ c ∈ conns, c.fromNoteId ≠ c.toNoteId) ∧
  List.Pairwise (fun c d => ¬ sameUnorderedPair c d) conns

/-- Follows the spec's words: the target segment length is the straight-line
distance between the endpoints, divided by the segment count, times a slack
factor. -/
def spec_targetSegmentLength (dist : ℚ) (segments : ℕ) (slack : ℚ) : ℚ :=
  dist / (segments : ℚ) * slack

/-- The pinned-flag pattern a `V1` chain carries: `true` exactly at indices `0`
and `NUM_POINTS - 1`. -/
def V1.pinnedFlags : List Bool :=
  (List.range V1.NUM_POINTS).map (fun i => i == 0 || i == V1.NUM_POINTS - 1)

/-- The pinned-flag pattern a `V2` chain carries: `true` exactly at indices `0`
and `NUM_SEGMENTS`. -/
def V2.pinnedFlags : List Bool :=
  (List.range (V2.NUM_SEGMENTS + 1)).map (fun i => i == 0 || i == V2.NUM_SEGMENTS)

/-- A concrete note used to evaluate the embedding on explicit inputs. -/
def sampleNoteA : StickyNote :=
  { id := "a", content := "", position := { x := 0, y := 0 }
  , color := StickyColor.yellow, width := 200, height := 200, zIndex := 1 }

/-- A second concrete note (center `(400, 100)`). -/
def sampleNoteB : StickyNote :=
  { id := "b", content := "", position := { x := 300, y := 0 }
  , color := StickyColor.pink, width := 200, height := 200, zIndex := 2 }

/-- A note whose center coincides with `sampleNoteA`'s center. -/
def sampleNoteC : StickyNote :=
  { id := "c", content := "", position := { x := 0, y := 0 }
  , color := StickyColor.mint, width := 200, height := 200, zIndex := 3 }

/-- A concrete connection binding `sampleNoteA` to `sampleNoteB`. -/
def sampleConnection : Connection :=
  { id := "c1", fromNoteId := "a", toNoteId := "b" }

/-- A concrete workspace with a pending connection from `sampleNoteA`. -/
def sampleWorkspace : Workspace :=
  { notes := [sampleNoteA, sampleNoteB], connections := []
  , connectingFrom := some "a", maxZIndex := 1 }

/-!  ## Generic lemmas about the loop combinators -/

theorem length_mapIdxFrom (f : ℕ → α → α) (i : ℕ) (l : List α) :
    (mapIdxFrom f i l).length = l.length := by
  induction l generalizing i with
  | nil => rfl
  | cons a t ih => simp [mapIdxFrom, ih]

theorem getElem?_mapIdxFrom (f : ℕ → α → α) (i j : ℕ) (l : List α) :
    (mapIdxFrom f i l)[j]? = (l[j]?).map (f (i + j)) := by
  induction l generalizing i j with
  | nil => simp [mapIdxFrom]
  | cons a t ih =>
    cases j with
    | zero => simp [mapIdxFrom]
    | succ k =>
      have h := ih (i + 1) k
      have e : i + 1 + k = i + (k + 1) := by omega
      rw [e] at h
      simpa [mapIdxFrom] using h

theorem length_chainPass (step : α → α → α × α) (c : α) (l : List α) :
    (chainPass step c l).length = l.length + 1 := by
  induction l generalizing c with
  | nil => rfl
  | cons b t ih => simp [chainPass, ih]

theorem chainPass_pin_flag (step : α → α → α × α) (pin : α → Bool)
    (hstep : ∀ a b, pin (step a b).1 = pin a ∧ pin (step a b).2 = pin b)
    (c : α) (l : List α) (j : ℕ) :
    ((chainPass step c l)[j]?).map pin = (((c :: l)[j]?)).map pin := by
  induction l generalizing c j with
  | nil => cases j <;> simp [chainPass]
  | cons b t ih =>
    cases j with
    | zero => simp [chainPass, (hstep c b).1]
    | succ k =>
      have h := ih (step c b).2 k
      cases k with
      | zero => simpa [chainPass, (hstep c b).2] using h
      | succ m => simpa [chainPass] using h

theorem chainPass_pinned_fixed (step : α → α → α × α) (pin : α → Bool)
    (hfix : ∀ a b, (pin a = true → (step a b).1 = a) ∧ (pin b = true → (step a b).2 = b))
    (c : α) (l : List α) (j : ℕ) (p : α)
    (hj : (c :: l)[j]? = some p) (hp : pin p = true) :
    (chainPass step c l)[j]? = some p := by
  induction l generalizing c j with
  | nil =>
    cases j with
    | zero => simpa [chainPass] using hj
    | succ k => simp at hj
  | cons b t ih =>
    cases j with
    | zero =>
      have hc : c = p := by simpa using hj
      subst hc
      simpa [chainPass] using (hfix c b).1 hp
    | succ k =>
      have hj' : (b :: t)[k]? = some p := by simpa using hj
      cases k with
      | zero =>
        have hb : b = p := by simpa using hj'
        subst hb
        have hq2 : (step c b).2 = b := (hfix c b).2 hp
        have := ih (step c b).2 0 (by simp [hq2])
        simpa [chainPass] using this
      | succ m =>
        have := ih (step c b).2 (m + 1) (by simpa using hj')
        simpa [chainPass] using this

theorem chainPassM_eq_some (stepM : α → α → Option (α × α)) (step : α → α → α × α)
    (h : ∀ a b, stepM a b = some (step a b)) (c : α) (l : List α) :
    chainPassM stepM c l = some (chainPass step c l) := by
  induction l generalizing c with
  | nil => rfl
  | cons b t ih => simp [chainPassM, chainPass, h c b, ih]

/-! ## Lemmas about the explicit-velocity variant `V1` -/

theorem v1_relaxPair_pin_flag (sqrt : ℚ → ℚ) (s e : Position) (p1 p2 : V1.PhysicsPoint) :
    (V1.relaxPair sqrt s e p1 p2).1.pinned = p1.pinned ∧
    (V1.relaxPair sqrt s e p1 p2).2.pinned = p2.pinned := by
  unfold V1.relaxPair
  dsimp only
  split
  all_goals refine ⟨?_, ?_⟩ <;> dsimp only <;> first | rfl | (split <;> rfl)

theorem v1_relaxPair_pinned_fixed (sqrt : ℚ → ℚ) (s e : Position) (p1 p2 : V1.PhysicsPoint) :
    (p1.pinned = true → (V1.relaxPair sqrt s e p1 p2).1 = p1) ∧
    (p2.pinned = true → (V1.relaxPair sqrt s e p1 p2).2 = p2) := by
  unfold V1.relaxPair
  dsimp only
  split
  all_goals refine ⟨fun hp => ?_, fun hp => ?_⟩ <;> dsimp only <;> first | rfl | simp [hp]

theorem v1_relaxPass_length (sqrt : ℚ → ℚ) (s e : Position) (pts : List V1.PhysicsPoint) :
    (V1.relaxPass sqrt s e pts).length = pts.length := by
  cases pts with
  | nil => rfl
  | cons p rest => simp [V1.relaxPass, length_chainPass]

theorem v1_relaxPass_pin_flag (sqrt : ℚ → ℚ) (s e : Position)
    (pts : List V1.PhysicsPoint) (j : ℕ) :
    ((V1.relaxPass sqrt s e pts)[j]?).map (fun p => p.pinned) =
      (pts[j]?).map (fun p => p.pinned) := by
  cases pts with
  | nil => simp [V1.relaxPass]
  | cons p rest =>
    exact chainPass_pin_flag (V1.relaxPair sqrt s e) (fun p => p.pinned)
      (fun a b => v1_relaxPair_pin_flag sqrt s e a b) p rest j

theorem v1_relaxPass_pinned_fixed (sqrt : ℚ → ℚ) (s e : Position)
    (pts : List V1.PhysicsPoint) (j : ℕ) (p : V1.PhysicsPoint)
    (hj : pts[j]? = some p) (hp : p.pinned = true) :
    (V1.relaxPass sqrt s e pts)[j]? = some p := by
  cases pts with
  | nil => simp at hj
  | cons q rest =>
    exact chainPass_pinned_fixed (V1.relaxPair sqrt s e) (fun p => p.pinned)
      (fun a b => v1_relaxPair_pinned_fixed sqrt s e a b) q rest j p hj hp

theorem v1_relaxIter_length (sqrt : ℚ → ℚ) (s e : Position) (n : ℕ)
    (pts : List V1.PhysicsPoint) :
    (V1.relaxIter sqrt s e n pts).length = pts.length := by
  induction n generalizing pts with
  | zero => rfl
  | succ m ih => simp [V1.relaxIter, ih, v1_relaxPass_length]

theorem v1_relaxIter_pinned_fixed (sqrt : ℚ → ℚ) (s e : Position) (n : ℕ)
    (pts : List V1.PhysicsPoint) (j : ℕ) (p : V1.PhysicsPoint)
    (hj : pts[j]? = some p) (hp : p.pinned = true) :
    (V1.relaxIter sqrt s e n pts)[j]? = some p := by
  induction n generalizing pts with
  | zero => exact hj
  | succ m ih =>
    exact ih (V1.relaxPass sqrt s e pts) (v1_relaxPass_pinned_fixed sqrt s e pts j p hj hp)

theorem v1_repin_getElem? (s e : Position) (pts : List V1.PhysicsPoint) (j : ℕ) :
    (V1.repin s e pts)[j]? = (pts[j]?).map (fun p =>
      if j = 0 then V1.setPos p s
      else if j = V1.NUM_POINTS - 1 then V1.setPos p e
      else p) := by
  simpa using getElem?_mapIdxFrom _ 0 j pts

theorem v1_integrate_getElem? (pts : List V1.PhysicsPoint) (j : ℕ) :
    (V1.integrate pts)[j]? = (pts[j]?).map (fun p =>
      if 1 ≤ j ∧ j < V1.NUM_POINTS - 1 then V1.integratePoint p else p) := by
  simpa using getElem?_mapIdxFrom _ 0 j pts

theorem v1_repin_length (s e : Position) (pts : List V1.PhysicsPoint) :
    (V1.repin s e pts).length = pts.length :=
  length_mapIdxFrom _ 0 pts

theorem v1_integrate_length (pts : List V1.PhysicsPoint) :
    (V1.integrate pts).length = pts.length :=
  length_mapIdxFrom _ 0 pts

theorem v1_simulate_length (sqrt : ℚ → ℚ) (fromNote toNote : StickyNote)
    (pts : List V1.PhysicsPoint) :
    (V1.simulate sqrt fromNote toNote pts).length = pts.length := by
  simp [V1.simulate, v1_relaxIter_length, v1_integrate_length, v1_repin_length]

theorem v1_pin_of_pattern (pts : List V1.PhysicsPoint)
    (hpin : pts.map (fun p => p.pinned) = V1.pinnedFlags) :
    pts.length = V1.NUM_POINTS ∧
    ∀ j p, pts[j]? = some p → p.pinned = (j == 0 || j == V1.NUM_POINTS - 1) := by
  constructor
  · have h := congrArg List.length hpin
    simpa [V1.pinnedFlags] using h
  · intro j p hj
    have h1 : (pts.map (fun p => p.pinned))[j]? = V1.pinnedFlags[j]? := by rw [hpin]
    rw [List.getElem?_map, hj] at h1
    simp only [V1.pinnedFlags, List.getElem?_map] at h1
    have hlt : j < V1.NUM_POINTS := by
      by_contra hge
      rw [List.getElem?_eq_none (by simpa using Nat.le_of_not_lt hge)] at h1
      simp at h1
    rw [List.getElem?_range hlt] at h1
    simpa using h1

theorem v1_tick_pin (sqrt : ℚ → ℚ) (fromNote toNote : StickyNote)
    (pts : List V1.PhysicsPoint)
    (hpin : pts.map (fun p => p.pinned) = V1.pinnedFlags) :
    ((V1.simulate sqrt fromNote toNote pts)[0]?).map V1.posXY
        = some (getNoteCenter fromNote) ∧
    ((V1.simulate sqrt fromNote toNote pts)[V1.NUM_POINTS - 1]?).map V1.posXY
        = some (getNoteCenter toNote) ∧
    ∀ (j : ℕ) (p : V1.PhysicsPoint),
      (V1.repin (getNoteCenter fromNote) (getNoteCenter toNote) pts)[j]? = some p →
      p.pinned = true →
      (V1.simulate sqrt fromNote toNote pts)[j]? = some p := by
  obtain ⟨hlen, hflags⟩ := v1_pin_of_pattern pts hpin
  have hlt0 : 0 < pts.length := by rw [hlen]; norm_num [V1.NUM_POINTS]
  have hlt11 : V1.NUM_POINTS - 1 < pts.length := by rw [hlen]; norm_num [V1.NUM_POINTS]
  obtain ⟨p0, hg0⟩ : ∃ a, pts[0]? = some a := ⟨_, List.getElem?_eq_getElem hlt0⟩
  obtain ⟨p11, hg11⟩ : ∃ a, pts[V1.NUM_POINTS - 1]? = some a :=
    ⟨_, List.getElem?_eq_getElem hlt11⟩
  have hp0 : p0.pinned = true := by simpa using hflags 0 p0 hg0
  have hp11 : p11.pinned = true := by simpa using hflags (V1.NUM_POINTS - 1) p11 hg11
  have e0 : (V1.repin (getNoteCenter fromNote) (getNoteCenter toNote) pts)[0]?
      = some (V1.setPos p0 (getNoteCenter fromNote)) := by
    rw [v1_repin_getElem?, hg0]; simp
  have e11 : (V1.repin (getNoteCenter fromNote) (getNoteCenter toNote) pts)[V1.NUM_POINTS - 1]?
      = some (V1.setPos p11 (getNoteCenter toNote)) := by
    rw [v1_repin_getElem?, hg11]; norm_num [V1.NUM_POINTS]
  have f0 : (V1.integrate (V1.repin (getNoteCenter fromNote) (getNoteCenter toNote) pts))[0]?
      = some (V1.setPos p0 (getNoteCenter fromNote)) := by
    rw [v1_integrate_getElem?, e0]; simp
  have f11 : (V1.integrate (V1.repin (getNoteCenter fromNote) (getNoteCenter toNote) pts))[V1.NUM_POINTS - 1]?
      = some (V1.setPos p11 (getNoteCenter toNote)) := by
    rw [v1_integrate_getElem?, e11]; norm_num [V1.NUM_POINTS]
  refine ⟨?_, ?_, ?_⟩
  · have r0 := v1_relaxIter_pinned_fixed sqrt (getNoteCenter fromNote) (getNoteCenter toNote)
      V1.PASSES _ 0 _ f0 hp0
    simp only [V1.simulate]
    rw [r0]
    rfl
  · have r11 := v1_relaxIter_pinned_fixed sqrt (getNoteCenter fromNote) (getNoteCenter toNote)
      V1.PASSES _ (V1.NUM_POINTS - 1) _ f11 hp11
    simp only [V1.simulate]
    rw [r11]
    rfl
  · intro j p hjp hp
    have hjp' := hjp
    rw [v1_repin_getElem?] at hjp'
    cases hq : pts[j]? with
    | none => rw [hq] at hjp'; simp at hjp'
    | some q =>
      rw [hq] at hjp'
      simp only [Option.map_some'] at hjp'
      have hqpin : p.pinned = q.pinned := by
        rw [← Option.some.inj hjp']
        split
        · rfl
        · split <;> rfl
      have hqp : q.pinned = true := by rw [← hqpin]; exact hp
      have hj01 : j = 0 ∨ j = V1.NUM_POINTS - 1 := by
        have h := hflags j q hq
        rw [hqp] at h
        have h' := h.symm
        simpa using h'
      have hcond : ¬ (1 ≤ j ∧ j < V1.NUM_POINTS - 1) := by
        rcases hj01 with h | h <;> subst h <;> simp
      have fj : (V1.integrate (V1.repin (getNoteCenter fromNote) (getNoteCenter toNote) pts))[j]?
          = some p := by
        rw [v1_integrate_getElem?, hjp]
        simp [hcond]
      simp only [V1.simulate]
      exact v1_relaxIter_pinned_fixed sqrt (getNoteCenter fromNote) (getNoteCenter toNote)
        V1.PASSES _ j p fj hp

/-! ## Lemmas about the Verlet variant `V2` -/

theorem v2_relaxPair_pin_flag (sqrt : ℚ → ℚ) (segLen : ℚ) (p1 p2 : V2.Point) :
    (V2.relaxPair sqrt segLen p1 p2).1.pinned = p1.pinned ∧
    (V2.relaxPair sqrt segLen p1 p2).2.pinned = p2.pinned := by
  unfold V2.relaxPair
  dsimp only
  split
  all_goals refine ⟨?_, ?_⟩ <;> dsimp only <;> first | rfl | (split <;> rfl)

theorem v2_relaxPair_pinned_fixed (sqrt : ℚ → ℚ) (segLen : ℚ) (p1 p2 : V2.Point) :
    (p1.pinned = true → (V2.relaxPair sqrt segLen p1 p2).1 = p1) ∧
    (p2.pinned = true → (V2.relaxPair sqrt segLen p1 p2).2 = p2) := by
  unfold V2.relaxPair
  dsimp only
  split
  all_goals refine ⟨fun hp => ?_, fun hp => ?_⟩ <;> dsimp only <;> first | rfl | simp [hp]

theorem v2_relaxPass_length (sqrt : ℚ → ℚ) (segLen : ℚ) (pts : List V2.Point) :
    (V2.relaxPass sqrt segLen pts).length = pts.length := by
  cases pts with
  | nil => rfl
  | cons p rest => simp [V2.relaxPass, length_chainPass]

theorem v2_relaxPass_pin_flag (sqrt : ℚ → ℚ) (segLen : ℚ)
    (pts : List V2.Point) (j : ℕ) :
    ((V2.relaxPass sqrt segLen pts)[j]?).map (fun p => p.pinned) =
      (pts[j]?).map (fun p => p.pinned) := by
  cases pts with
  | nil => simp [V2.relaxPass]
  | cons p rest =>
    exact chainPass_pin_flag (V2.relaxPair sqrt segLen) (fun p => p.pinned)
      (fun a b => v2_relaxPair_pin_flag sqrt segLen a b) p rest j

theorem v2_relaxPass_pinned_fixed (sqrt : ℚ → ℚ) (segLen : ℚ)
    (pts : List V2.Point) (j : ℕ) (p : V2.Point)
    (hj : pts[j]? = some p) (hp : p.pinned = true) :
    (V2.relaxPass sqrt segLen pts)[j]? = some p := by
  cases pts with
  | nil => simp at hj
  | cons q rest =>
    exact chainPass_pinned_fixed (V2.relaxPair sqrt segLen) (fun p => p.pinned)
      (fun a b => v2_relaxPair_pinned_fixed sqrt segLen a b) q rest j p hj hp

theorem v2_relaxIter_length (sqrt : ℚ → ℚ) (segLen : ℚ) (n : ℕ)
    (pts : List V2.Point) :
    (V2.relaxIter sqrt segLen n pts).length = pts.length := by
  induction n generalizing pts with
  | zero => rfl
  | succ m ih => simp [V2.relaxIter, ih, v2_relaxPass_length]

theorem v2_relaxIter_pinned_fixed (sqrt : ℚ → ℚ) (segLen : ℚ) (n : ℕ)
    (pts : List V2.Point) (j : ℕ) (p : V2.Point)
    (hj : pts[j]? = some p) (hp : p.pinned = true) :
    (V2.relaxIter sqrt segLen n pts)[j]? = some p := by
  induction n generalizing pts with
  | zero => exact hj
  | succ m ih =>
    exact ih (V2.relaxPass sqrt segLen pts) (v2_relaxPass_pinned_fixed sqrt segLen pts j p hj hp)

theorem v2_repin_getElem? (s e : Position) (pts : List V2.Point) (j : ℕ) :
    (V2.repin s e pts)[j]? = (pts[j]?).map (fun p =>
      if j = 0 then V2.setPos p s
      else if j = V2.NUM_SEGMENTS then V2.setPos p e
      else p) := by
  simpa using getElem?_mapIdxFrom _ 0 j pts

theorem v2_integrate_getElem? (pts : List V2.Point) (j : ℕ) :
    (V2.integrate pts)[j]? = (pts[j]?).map (fun p =>
      if 1 ≤ j ∧ j < V2.NUM_SEGMENTS then V2.integratePoint p else p) := by
  simpa using getElem?_mapIdxFrom _ 0 j pts

theorem v2_repin_length (s e : Position) (pts : List V2.Point) :
    (V2.repin s e pts).length = pts.length :=
  length_mapIdxFrom _ 0 pts

theorem v2_integrate_length (pts : List V2.Point) :
    (V2.integrate pts).length = pts.length :=
  length_mapIdxFrom _ 0 pts

theorem v2_simulate_length (sqrt : ℚ → ℚ) (fromNote toNote : StickyNote)
    (pts : List V2.Point) :
    (V2.simulate sqrt fromNote toNote pts).length = pts.length := by
  simp [V2.simulate, v2_relaxIter_length, v2_integrate_length, v2_repin_length]

theorem v2_pin_of_pattern (pts : List V2.Point)
    (hpin : pts.map (fun p => p.pinned) = V2.pinnedFlags) :
    pts.length = V2.NUM_SEGMENTS + 1 ∧
    ∀ j p, pts[j]? = some p → p.pinned = (j == 0 || j == V2.NUM_SEGMENTS) := by
  constructor
  · have h := congrArg List.length hpin
    simpa [V2.pinnedFlags] using h
  · intro j p hj
    have h1 : (pts.map (fun p => p.pinned))[j]? = V2.pinnedFlags[j]? := by rw [hpin]
    rw [List.getElem?_map, hj] at h1
    simp only [V2.pinnedFlags, List.getElem?_map] at h1
    have hlt : j < V2.NUM_SEGMENTS + 1 := by
      by_contra hge
      rw [List.getElem?_eq_none (by simpa using Nat.le_of_not_lt hge)] at h1
      simp at h1
    rw [List.getElem?_range hlt] at h1
    simpa using h1

theorem v2_tick_pin (sqrt : ℚ → ℚ) (fromNote toNote : StickyNote)
    (pts : List V2.Point)
    (hpin : pts.map (fun p => p.pinned) = V2.pinnedFlags) :
    ((V2.simulate sqrt fromNote toNote pts)[0]?).map V2.posXY
        = some (getNoteCenter fromNote) ∧
    ((V2.simulate sqrt fromNote toNote pts)[V2.NUM_SEGMENTS]?).map V2.posXY
        = some (getNoteCenter toNote) ∧
    ∀ (j : ℕ) (p : V2.Point),
      (V2.repin (getNoteCenter fromNote) (getNoteCenter toNote) pts)[j]? = some p →
      p.pinned = true →
      (V2.simulate sqrt fromNote toNote pts)[j]? = some p := by
  obtain ⟨hlen, hflags⟩ := v2_pin_of_pattern pts hpin
  have hlt0 : 0 < pts.length := by rw [hlen]; norm_num
  have hlt10 : V2.NUM_SEGMENTS < pts.length := by rw [hlen]; omega
  obtain ⟨p0, hg0⟩ : ∃ a, pts[0]? = some a := ⟨_, List.getElem?_eq_getElem hlt0⟩
  obtain ⟨p10, hg10⟩ : ∃ a, pts[V2.NUM_SEGMENTS]? = some a :=
    ⟨_, List.getElem?_eq_getElem hlt10⟩
  have hp0 : p0.pinned = true := by simpa using hflags 0 p0 hg0
  have hp10 : p10.pinned = true := by simpa using hflags V2.NUM_SEGMENTS p10 hg10
  have e0 : (V2.repin (getNoteCenter fromNote) (getNoteCenter toNote) pts)[0]?
      = some (V2.setPos p0 (getNoteCenter fromNote)) := by
    rw [v2_repin_getElem?, hg0]; simp
  have e10 : (V2.repin (getNoteCenter fromNote) (getNoteCenter toNote) pts)[V2.NUM_SEGMENTS]?
      = some (V2.setPos p10 (getNoteCenter toNote)) := by
    rw [v2_repin_getElem?, hg10]; norm_num [V2.NUM_SEGMENTS]
  have f0 : (V2.integrate (V2.repin (getNoteCenter fromNote) (getNoteCenter toNote) pts))[0]?
      = some (V2.setPos p0 (getNoteCenter fromNote)) := by
    rw [v2_integrate_getElem?, e0]; simp
  have f10 : (V2.integrate (V2.repin (getNoteCenter fromNote) (getNoteCenter toNote) pts))[V2.NUM_SEGMENTS]?
      = some (V2.setPos p10 (getNoteCenter toNote)) := by
    rw [v2_integrate_getElem?, e10]; norm_num [V2.NUM_SEGMENTS]
  refine ⟨?_, ?_, ?_⟩
  · have r0 := v2_relaxIter_pinned_fixed sqrt (V2.segmentLength sqrt fromNote toNote)
      V2.ITERATIONS _ 0 _ f0 hp0
    simp only [V2.simulate]
    rw [r0]
    rfl
  · have r10 := v2_relaxIter_pinned_fixed sqrt (V2.segmentLength sqrt fromNote toNote)
      V2.ITERATIONS _ V2.NUM_SEGMENTS _ f10 hp10
    simp only [V2.simulate]
    rw [r10]
    rfl
  · intro j p hjp hp
    have hjp' := hjp
    rw [v2_repin_getElem?] at hjp'
    cases hq : pts[j]? with
    | none => rw [hq] at hjp'; simp at hjp'
    | some q =>
      rw [hq] at hjp'
      simp only [Option.map_some'] at hjp'
      have hqpin : p.pinned = q.pinned := by
        rw [← Option.some.inj hjp']
        split
        · rfl
        · split <;> rfl
      have hqp : q.pinned = true := by rw [← hqpin]; exact hp
      have hj01 : j = 0 ∨ j = V2.NUM_SEGMENTS := by
        have h := hflags j q hq
        rw [hqp] at h
        have h' := h.symm
        simpa using h'
      have hcond : ¬ (1 ≤ j ∧ j < V2.NUM_SEGMENTS) := by
        rcases hj01 with h | h <;> subst h <;> simp
      have fj : (V2.integrate (V2.repin (getNoteCenter fromNote) (getNoteCenter toNote) pts))[j]?
          = some p := by
        rw [v2_integrate_getElem?, hjp]
        simp [hcond]
      simp only [V2.simulate]
      exact v2_relaxIter_pinned_fixed sqrt (V2.segmentLength sqrt fromNote toNote)
        V2.ITERATIONS _ j p fj hp

/-! ## Evaluation facts about the concrete square root -/

theorem isqrt_eval_zero : isqrt 0 = 0 := by decide

theorem isqrt_eval_one : isqrt 1 = 1 := by decide

theorem isqrt_eval_hundred : isqrt 100 = 10 := by decide

theorem ratSqrt_zero : ratSqrt 0 = 0 := by
  unfold ratSqrt
  rw [show (0 : ℚ).num = 0 from rfl, show (0 : ℚ).den = 1 from rfl,
    show (0 : Int).toNat = 0 from rfl, isqrt_eval_zero, isqrt_eval_one]
  norm_num

theorem ratSqrt_hundred : ratSqrt 100 = 10 := by
  unfold ratSqrt
  rw [show (100 : ℚ).num = 100 from rfl, show (100 : ℚ).den = 1 from rfl,
    show (100 : Int).toNat = 100 from rfl, isqrt_eval_hundred, isqrt_eval_one]
  norm_num

/-! ## Displacement formulas for one constraint-pair update -/

theorem v1_relaxPair_moved (sqrt : ℚ → ℚ) (s e : Position) (p1 p2 : V1.PhysicsPoint)
    (hd : 0 < sqrt ((p2.x - p1.x) * (p2.x - p1.x) + (p2.y - p1.y) * (p2.y - p1.y))) :
    (p1.pinned = false →
      (V1.relaxPair sqrt s e p1 p2).1.x = p1.x + 0.5 * V1.STIFFNESS *
        ((sqrt ((p2.x - p1.x) * (p2.x - p1.x) + (p2.y - p1.y) * (p2.y - p1.y)) -
            V1.targetDist sqrt s e) /
          sqrt ((p2.x - p1.x) * (p2.x - p1.x) + (p2.y - p1.y) * (p2.y - p1.y))) *
        (p2.x - p1.x) ∧
      (V1.relaxPair sqrt s e p1 p2).1.y = p1.y + 0.5 * V1.STIFFNESS *
        ((sqrt ((p2.x - p1.x) * (p2.x - p1.x) + (p2.y - p1.y) * (p2.y - p1.y)) -
            V1.targetDist sqrt s e) /
          sqrt ((p2.x - p1.x) * (p2.x - p1.x) + (p2.y - p1.y) * (p2.y - p1.y))) *
        (p2.y - p1.y)) ∧
    (p2.pinned = false →
      (V1.relaxPair sqrt s e p1 p2).2.x = p2.x - 0.5 * V1.STIFFNESS *
        ((sqrt ((p2.x - p1.x) * (p2.x - p1.x) + (p2.y - p1.y) * (p2.y - p1.y)) -
            V1.targetDist sqrt s e) /
          sqrt ((p2.x - p1.x) * (p2.x - p1.x) + (p2.y - p1.y) * (p2.y - p1.y))) *
        (p2.x - p1.x) ∧
      (V1.relaxPair sqrt s e p1 p2).2.y = p2.y - 0.5 * V1.STIFFNESS *
        ((sqrt ((p2.x - p1.x) * (p2.x - p1.x) + (p2.y - p1.y) * (p2.y - p1.y)) -
            V1.targetDist sqrt s e) /
          sqrt ((p2.x - p1.x) * (p2.x - p1.x) + (p2.y - p1.y) * (p2.y - p1.y))) *
        (p2.y - p1.y)) := by
  unfold V1.relaxPair
  rw [if_pos hd]
  dsimp only
  refine ⟨fun hp => ?_, fun hp => ?_⟩ <;>
    rw [if_neg (by rw [hp]; exact Bool.false_ne_true)] <;>
    exact ⟨by dsimp only; ring, by dsimp only; ring⟩

theorem v2_relaxPair_moved (sqrt : ℚ → ℚ) (segLen : ℚ) (q1 q2 : V2.Point)
    (hd : sqrt ((q2.x - q1.x) * (q2.x - q1.x) + (q2.y - q1.y) * (q2.y - q1.y)) ≠ 0) :
    (q1.pinned = false →
      (V2.relaxPair sqrt segLen q1 q2).1.x = q1.x + 0.5 *
        ((sqrt ((q2.x - q1.x) * (q2.x - q1.x) + (q2.y - q1.y) * (q2.y - q1.y)) - segLen) /
          sqrt ((q2.x - q1.x) * (q2.x - q1.x) + (q2.y - q1.y) * (q2.y - q1.y))) *
        (q2.x - q1.x) ∧
      (V2.relaxPair sqrt segLen q1 q2).1.y = q1.y + 0.5 *
        ((sqrt ((q2.x - q1.x) * (q2.x - q1.x) + (q2.y - q1.y) * (q2.y - q1.y)) - segLen) /
          sqrt ((q2.x - q1.x) * (q2.x - q1.x) + (q2.y - q1.y) * (q2.y - q1.y))) *
        (q2.y - q1.y)) ∧
    (q2.pinned = false →
      (V2.relaxPair sqrt segLen q1 q2).2.x = q2.x - 0.5 *
        ((sqrt ((q2.x - q1.x) * (q2.x - q1.x) + (q2.y - q1.y) * (q2.y - q1.y)) - segLen) /
          sqrt ((q2.x - q1.x) * (q2.x - q1.x) + (q2.y - q1.y) * (q2.y - q1.y))) *
        (q2.x - q1.x) ∧
      (V2.relaxPair sqrt segLen q1 q2).2.y = q2.y - 0.5 *
        ((sqrt ((q2.x - q1.x) * (q2.x - q1.x) + (q2.y - q1.y) * (q2.y - q1.y)) - segLen) /
          sqrt ((q2.x - q1.x) * (q2.x - q1.x) + (q2.y - q1.y) * (q2.y - q1.y))) *
        (q2.y - q1.y)) := by
  unfold V2.relaxPair
  rw [if_neg hd]
  dsimp only
  refine ⟨fun hp => ?_, fun hp => ?_⟩ <;>
    rw [if_neg (by rw [hp]; exact Bool.false_ne_true)] <;>
    exact ⟨by dsimp only; ring, by dsimp only; ring⟩

/-! ## The division-checked relaxation agrees with the plain one -/

theorem v1_relaxPairChecked_eq (sqrt : ℚ → ℚ) (s e : Position) (p1 p2 : V1.PhysicsPoint) :
    V1.relaxPairChecked sqrt s e p1 p2 = some (V1.relaxPair sqrt s e p1 p2) := by
  unfold V1.relaxPairChecked V1.relaxPair
  dsimp only
  split
  · rename_i h
    rw [if_neg (ne_of_gt h)]
  · rfl

theorem v2_relaxPairChecked_eq (sqrt : ℚ → ℚ) (segLen : ℚ) (q1 q2 : V2.Point) :
    V2.relaxPairChecked sqrt segLen q1 q2 = some (V2.relaxPair sqrt segLen q1 q2) := by
  unfold V2.relaxPairChecked V2.relaxPair
  dsimp only
  split <;> rfl

theorem v1_relaxPassChecked_eq (sqrt : ℚ → ℚ) (s e : Position) (pts : List V1.PhysicsPoint) :
    V1.relaxPassChecked sqrt s e pts = some (V1.relaxPass sqrt s e pts) := by
  cases pts with
  | nil => rfl
  | cons p rest =>
    exact chainPassM_eq_some _ _ (fun a b => v1_relaxPairChecked_eq sqrt s e a b) p rest

theorem v2_relaxPassChecked_eq (sqrt : ℚ → ℚ) (segLen : ℚ) (pts : List V2.Point) :
    V2.relaxPassChecked sqrt segLen pts = some (V2.relaxPass sqrt segLen pts) := by
  cases pts with
  | nil => rfl
  | cons p rest =>
    exact chainPassM_eq_some _ _ (fun a b => v2_relaxPairChecked_eq sqrt segLen a b) p rest

theorem v1_relaxIterChecked_eq (sqrt : ℚ → ℚ) (s e : Position) (n : ℕ)
    (pts : List V1.PhysicsPoint) :
    V1.relaxIterChecked sqrt s e n pts = some (V1.relaxIter sqrt s e n pts) := by
  induction n generalizing pts with
  | zero => rfl
  | succ m ih =>
    unfold V1.relaxIterChecked V1.relaxIter
    rw [v1_relaxPassChecked_eq]
    exact ih (V1.relaxPass sqrt s e pts)

theorem v2_relaxIterChecked_eq (sqrt : ℚ → ℚ) (segLen : ℚ) (n : ℕ) (pts : List V2.Point) :
    V2.relaxIterChecked sqrt segLen n pts = some (V2.relaxIter sqrt segLen n pts) := by
  induction n generalizing pts with
  | zero => rfl
  | succ m ih =>
    unfold V2.relaxIterChecked V2.relaxIter
    rw [v2_relaxPassChecked_eq]
    exact ih (V2.relaxPass sqrt segLen pts)

/-! ## The path string is the polyline through all points in order -/

theorem pathOf_foldl_from (rest : List Position) :
    ∀ (acc : String) (i : ℕ), 1 ≤ i →
    List.foldl (fun acc ip =>
        if ip.1 = 0 then "M " ++ pointStr ip.2 else acc ++ " L " ++ pointStr ip.2)
      acc (List.enumFrom i rest)
      = rest.foldl (fun acc q => acc ++ " L " ++ pointStr q) acc := by
  induction rest with
  | nil => intro acc i hi; rfl
  | cons q t ih =>
    intro acc i hi
    rw [List.enumFrom_cons]
    simp only [List.foldl_cons]
    rw [if_neg (by omega)]
    exact ih _ (i + 1) (by omega)

theorem pathOf_eq_polylineSpec (ps : List Position) : pathOf ps = polylineSpec ps := by
  cases ps with
  | nil => rfl
  | cons p rest =>
    unfold pathOf polylineSpec
    rw [List.enum_cons]
    simp only [List.foldl_cons, if_true]
    exact pathOf_foldl_from rest _ 1 (by omega)

/-! ## Workspace store lemmas -/

theorem connectionExists_false (conns : List Connection) (a b : String)
    (h : connectionExists conns a b = false) :
    ∀ c ∈ conns,
      ¬ ((c.fromNoteId = a ∧ c.toNoteId = b) ∨ (c.fromNoteId = b ∧ c.toNoteId = a)) := by
  intro c hc
  unfold connectionExists at h
  rw [List.any_eq_false] at h
  have hcfalse := h c hc
  simpa using hcfalse

theorem reachable_connectionsOk (s : Workspace) (hs : Reachable s) :
    ConnectionsOk s.connections := by
  induction hs with
  | empty => exact ⟨by simp [emptyWorkspace], by simp [emptyWorkspace]⟩
  | step op hw ih =>
    cases op with
    | addNote id pos color => exact ih
    | updateNotePosition id pos => exact ih
    | updateNoteContent id content => exact ih
    | updateNoteColor id color => exact ih
    | bringToFront id => exact ih
    | startConnection noteId => exact ih
    | cancelConnection => exact ih
    | deleteNote id =>
      refine ⟨?_, ?_⟩
      · intro c hc
        exact ih.1 c (List.mem_of_mem_filter hc)
      · exact ih.2.sublist (List.filter_sublist _)
    | deleteConnection id =>
      refine ⟨?_, ?_⟩
      · intro c hc
        exact ih.1 c (List.mem_of_mem_filter hc)
      · exact ih.2.sublist (List.filter_sublist _)
    | completeConnection genId toId =>
      rename_i w
      show ConnectionsOk (completeConnection genId toId w).connections
      unfold completeConnection
      cases hcf : w.connectingFrom with
      | none => exact ih
      | some a =>
        dsimp only
        by_cases hguard : (a != "" && a != toId) = true
        · rw [if_pos hguard]
          by_cases hex : connectionExists w.connections a toId = true
          · rw [if_neg (by simp [hex])]
            exact ih
          · have hex' : connectionExists w.connections a toId = false := by
              simpa using hex
            rw [if_pos (by simp [hex'])]
            refine ⟨?_, ?_⟩
            · intro c hc
              rcases List.mem_append.mp hc with h | h
              · exact ih.1 c h
              · have hc' : c = { id := genId, fromNoteId := a, toNoteId := toId } := by
                  simpa using h
                subst hc'
                have hab : a ≠ toId := by
                  have h' := hguard
                  simp [bne_iff_ne] at h'
                  exact h'.2
                simpa using hab
            · rw [List.pairwise_append]
              refine ⟨ih.2, by simp, ?_⟩
              intro c hc d hd
              have hd' : d = { id := genId, fromNoteId := a, toNoteId := toId } := by
                simpa using hd
              subst hd'
              have hno := connectionExists_false w.connections a toId hex' c hc
              unfold sameUnorderedPair
              exact hno
        · rw [if_neg hguard]
          exact ih

/-! ## Claims -/

/-- C1: for every simulation tick of a chain with resolvable endpoints (a chain
whose pinned flags are the chain pattern, i.e. pinned exactly at the two
endpoint indices), after the tick particle 0's position equals the current
center of the start note and the last particle's position equals the current
center of the end note, exactly; and a pinned particle is never moved after
the re-pin step: its value after the full tick is exactly its value right
after re-pinning, untouched by the integration step and by every
constraint-relaxation pass.  Holds for both implementation variants. -/
theorem C1_pin_invariant (sqrt : ℚ → ℚ) (fromNote toNote : StickyNote)
    (pts1 : List V1.PhysicsPoint) (pts2 : List V2.Point)
    (hpin1 : pts1.map (fun p => p.pinned) = V1.pinnedFlags)
    (hpin2 : pts2.map (fun p => p.pinned) = V2.pinnedFlags) :
    (((V1.simulate sqrt fromNote toNote pts1)[0]?).map V1.posXY
        = some (getNoteCenter fromNote) ∧
     ((V1.simulate sqrt fromNote toNote pts1)[V1.NUM_POINTS - 1]?).map V1.posXY
        = some (getNoteCenter toNote) ∧
     ∀ (j : ℕ) (p : V1.PhysicsPoint),
       (V1.repin (getNoteCenter fromNote) (getNoteCenter toNote) pts1)[j]? = some p →
       p.pinned = true →
       (V1.simulate sqrt fromNote toNote pts1)[j]? = some p) ∧
    (((V2.simulate sqrt fromNote toNote pts2)[0]?).map V2.posXY
        = some (getNoteCenter fromNote) ∧
     ((V2.simulate sqrt fromNote toNote pts2)[V2.NUM_SEGMENTS]?).map V2.posXY
        = some (getNoteCenter toNote) ∧
     ∀ (j : ℕ) (p : V2.Point),
       (V2.repin (getNoteCenter fromNote) (getNoteCenter toNote) pts2)[j]? = some p →
       p.pinned = true →
       (V2.simulate sqrt fromNote toNote pts2)[j]? = some p) :=
  ⟨v1_tick_pin sqrt fromNote toNote pts1 hpin1,
   v2_tick_pin sqrt fromNote toNote pts2 hpin2⟩

/-- Witness for C1 at a concrete input: freshly seeded chains between
`sampleNoteA` and `sampleNoteB`, stepped with the exact rational square root. -/
theorem C1_pin_invariant_witness :
    ((V1.initPoints (getNoteCenter sampleNoteA) (getNoteCenter sampleNoteB)).map
        (fun p => p.pinned) = V1.pinnedFlags) ∧
    ((V2.initPoints (getNoteCenter sampleNoteA) (getNoteCenter sampleNoteB)).map
        (fun p => p.pinned) = V2.pinnedFlags) ∧
    ((((V1.simulate ratSqrt sampleNoteA sampleNoteB
          (V1.initPoints (getNoteCenter sampleNoteA) (getNoteCenter sampleNoteB)))[0]?).map V1.posXY
        = some (getNoteCenter sampleNoteA) ∧
      ((V1.simulate ratSqrt sampleNoteA sampleNoteB
          (V1.initPoints (getNoteCenter sampleNoteA) (getNoteCenter sampleNoteB)))[V1.NUM_POINTS - 1]?).map V1.posXY
        = some (getNoteCenter sampleNoteB) ∧
      ∀ (j : ℕ) (p : V1.PhysicsPoint),
        (V1.repin (getNoteCenter sampleNoteA) (getNoteCenter sampleNoteB)
            (V1.initPoints (getNoteCenter sampleNoteA) (getNoteCenter sampleNoteB)))[j]? = some p →
        p.pinned = true →
        (V1.simulate ratSqrt sampleNoteA sampleNoteB
            (V1.initPoints (getNoteCenter sampleNoteA) (getNoteCenter sampleNoteB)))[j]? = some p) ∧
     (((V2.simulate ratSqrt sampleNoteA sampleNoteB
          (V2.initPoints (getNoteCenter sampleNoteA) (getNoteCenter sampleNoteB)))[0]?).map V2.posXY
        = some (getNoteCenter sampleNoteA) ∧
      ((V2.simulate ratSqrt sampleNoteA sampleNoteB
          (V2.initPoints (getNoteCenter sampleNoteA) (getNoteCenter sampleNoteB)))[V2.NUM_SEGMENTS]?).map V2.posXY
        = some (getNoteCenter sampleNoteB) ∧
      ∀ (j : ℕ) (p : V2.Point),
        (V2.repin (getNoteCenter sampleNoteA) (getNoteCenter sampleNoteB)
            (V2.initPoints (getNoteCenter sampleNoteA) (getNoteCenter sampleNoteB)))[j]? = some p →
        p.pinned = true →
        (V2.simulate ratSqrt sampleNoteA sampleNoteB
            (V2.initPoints (getNoteCenter sampleNoteA) (getNoteCenter sampleNoteB)))[j]? = some p)) :=
  ⟨by decide, by decide,
   C1_pin_invariant ratSqrt sampleNoteA sampleNoteB
     (V1.initPoints (getNoteCenter sampleNoteA) (getNoteCenter sampleNoteB))
     (V2.initPoints (getNoteCenter sampleNoteA) (getNoteCenter sampleNoteB))
     (by decide) (by decide)⟩

/-- C2 counterexample: in the explicit-velocity variant, with both particles
unpinned at `(0,0)` and `(10,0)`, coincident endpoints (target length `0`) and
the exact square root, the pair correction moves `p1.x` to `4`, while the
claimed movement of exactly half the corrective offset
(`0.5 * ((dist - target)/dist) * dx` with `dist = 10`) would move it to `5`:
the code additionally multiplies the offset by `STIFFNESS = 0.8`. -/
theorem C2_half_offset_cex :
    (V1.relaxPair ratSqrt { x := 0, y := 0 } { x := 0, y := 0 }
        { x := 0, y := 0, vx := 0, vy := 0, pinned := false }
        { x := 10, y := 0, vx := 0, vy := 0, pinned := false }).1.x = 4 ∧
    (0 : ℚ) + 0.5 * ((10 - V1.targetDist ratSqrt { x := 0, y := 0 } { x := 0, y := 0 }) / 10) *
        (10 - 0) = 5 ∧
    (4 : ℚ) ≠ 5 := by
  have htarget : V1.targetDist ratSqrt { x := 0, y := 0 } { x := 0, y := 0 } = 0 := by
    unfold V1.targetDist V1.totalDist
    dsimp only
    rw [show ((0 : ℚ) - 0) ^ 2 + ((0 : ℚ) - 0) ^ 2 = 0 from by norm_num, ratSqrt_zero]
    norm_num
  refine ⟨?_, ?_, by norm_num⟩
  · unfold V1.relaxPair
    dsimp only
    rw [show ((10 : ℚ) - 0) * (10 - 0) + (0 - 0) * (0 - 0) = 100 from by norm_num,
      ratSqrt_hundred]
    rw [if_pos (show (0 : ℚ) < 10 from by norm_num)]
    dsimp only
    rw [htarget]
    norm_num [V1.STIFFNESS]
  · rw [htarget]
    norm_num

/-- C2 (amended): in every relaxation pass, for every adjacent pair whose
current distance `d` is nonzero, the fractional correction is
`(d - targetLength) / d`; in the Verlet variant each non-pinned member of the
pair moves by exactly half the corrective offset
(`0.5 * correction * connecting vector`, the two members in opposite
directions), while in the explicit-velocity variant the corrective offset is
additionally scaled by the constant `STIFFNESS = 0.8`, so each non-pinned
member moves by `0.5 * 0.8 * correction * connecting vector`.  Pinned members
are never moved by this step in either variant. -/
theorem C2_constraint_correction (sqrt : ℚ → ℚ) (s e : Position) (segLen d1 d2 : ℚ)
    (p1 p2 : V1.PhysicsPoint) (q1 q2 : V2.Point)
    (hd1def : d1 = sqrt ((p2.x - p1.x) * (p2.x - p1.x) + (p2.y - p1.y) * (p2.y - p1.y)))
    (hd2def : d2 = sqrt ((q2.x - q1.x) * (q2.x - q1.x) + (q2.y - q1.y) * (q2.y - q1.y)))
    (hd1 : 0 < d1) (hd2 : d2 ≠ 0) :
    ((q1.pinned = false →
        (V2.relaxPair sqrt segLen q1 q2).1.x
          = q1.x + 0.5 * ((d2 - segLen) / d2) * (q2.x - q1.x) ∧
        (V2.relaxPair sqrt segLen q1 q2).1.y
          = q1.y + 0.5 * ((d2 - segLen) / d2) * (q2.y - q1.y)) ∧
      (q2.pinned = false →
        (V2.relaxPair sqrt segLen q1 q2).2.x
          = q2.x - 0.5 * ((d2 - segLen) / d2) * (q2.x - q1.x) ∧
        (V2.relaxPair sqrt segLen q1 q2).2.y
          = q2.y - 0.5 * ((d2 - segLen) / d2) * (q2.y - q1.y)) ∧
      (q1.pinned = true → (V2.relaxPair sqrt segLen q1 q2).1 = q1) ∧
      (q2.pinned = true → (V2.relaxPair sqrt segLen q1 q2).2 = q2)) ∧
    ((p1.pinned = false →
        (V1.relaxPair sqrt s e p1 p2).1.x
          = p1.x + 0.5 * V1.STIFFNESS * ((d1 - V1.targetDist sqrt s e) / d1) * (p2.x - p1.x) ∧
        (V1.relaxPair sqrt s e p1 p2).1.y
          = p1.y + 0.5 * V1.STIFFNESS * ((d1 - V1.targetDist sqrt s e) / d1) * (p2.y - p1.y)) ∧
      (p2.pinned = false →
        (V1.relaxPair sqrt s e p1 p2).2.x
          = p2.x - 0.5 * V1.STIFFNESS * ((d1 - V1.targetDist sqrt s e) / d1) * (p2.x - p1.x) ∧
        (V1.relaxPair sqrt s e p1 p2).2.y
          = p2.y - 0.5 * V1.STIFFNESS * ((d1 - V1.targetDist sqrt s e) / d1) * (p2.y - p1.y)) ∧
      (p1.pinned = true → (V1.relaxPair sqrt s e p1 p2).1 = p1) ∧
      (p2.pinned = true → (V1.relaxPair sqrt s e p1 p2).2 = p2) ∧
      V1.STIFFNESS = 0.8) := by
  subst hd1def
  subst hd2def
  exact
    ⟨⟨(v2_relaxPair_moved sqrt segLen q1 q2 hd2).1,
      (v2_relaxPair_moved sqrt segLen q1 q2 hd2).2,
      (v2_relaxPair_pinned_fixed sqrt segLen q1 q2).1,
      (v2_relaxPair_pinned_fixed sqrt segLen q1 q2).2⟩,
     ⟨(v1_relaxPair_moved sqrt s e p1 p2 hd1).1,
      (v1_relaxPair_moved sqrt s e p1 p2 hd1).2,
      (v1_relaxPair_pinned_fixed sqrt s e p1 p2).1,
      (v1_relaxPair_pinned_fixed sqrt s e p1 p2).2,
      rfl⟩⟩

/-- Witness for C2 at a concrete input: the pair `(0,0)`–`(10,0)` (distance
`10`), coincident endpoints, target length `0`, exact square root. -/
theorem C2_constraint_correction_witness :
    ((10 : ℚ) = ratSqrt ((10 - 0) * (10 - 0) + (0 - 0) * (0 - 0)) ∧ (0 : ℚ) < 10) ∧
    (((false = false) →
        (V2.relaxPair ratSqrt 0 { x := 0, y := 0, oldX := 0, oldY := 0, pinned := false }
            { x := 10, y := 0, oldX := 10, oldY := 0, pinned := false }).1.x
          = 0 + 0.5 * ((10 - 0) / 10) * (10 - 0) ∧
        (V2.relaxPair ratSqrt 0 { x := 0, y := 0, oldX := 0, oldY := 0, pinned := false }
            { x := 10, y := 0, oldX := 10, oldY := 0, pinned := false }).1.y
          = 0 + 0.5 * ((10 - 0) / 10) * (0 - 0)) ∧
      ((false = false) →
        (V2.relaxPair ratSqrt 0 { x := 0, y := 0, oldX := 0, oldY := 0, pinned := false }
            { x := 10, y := 0, oldX := 10, oldY := 0, pinned := false }).2.x
          = 10 - 0.5 * ((10 - 0) / 10) * (10 - 0) ∧
        (V2.relaxPair ratSqrt 0 { x := 0, y := 0, oldX := 0, oldY := 0, pinned := false }
            { x := 10, y := 0, oldX := 10, oldY := 0, pinned := false }).2.y
          = 0 - 0.5 * ((10 - 0) / 10) * (0 - 0)) ∧
      ((false = true) →
        (V2.relaxPair ratSqrt 0 { x := 0, y := 0, oldX := 0, oldY := 0, pinned := false }
            { x := 10, y := 0, oldX := 10, oldY := 0, pinned := false }).1
          = { x := 0, y := 0, oldX := 0, oldY := 0, pinned := false }) ∧
      ((false = true) →
        (V2.relaxPair ratSqrt 0 { x := 0, y := 0, oldX := 0, oldY := 0, pinned := false }
            { x := 10, y := 0, oldX := 10, oldY := 0, pinned := false }).2
          = { x := 10, y := 0, oldX := 10, oldY := 0, pinned := false })) ∧
    (((false = false) →
        (V1.relaxPair ratSqrt { x := 0, y := 0 } { x := 0, y := 0 }
            { x := 0, y := 0, vx := 0, vy := 0, pinned := false }
            { x := 10, y := 0, vx := 0, vy := 0, pinned := false }).1.x
          = 0 + 0.5 * V1.STIFFNESS *
              ((10 - V1.targetDist ratSqrt { x := 0, y := 0 } { x := 0, y := 0 }) / 10) *
              (10 - 0) ∧
        (V1.relaxPair ratSqrt { x := 0, y := 0 } { x := 0, y := 0 }
            { x := 0, y := 0, vx := 0, vy := 0, pinned := false }
            { x := 10, y := 0, vx := 0, vy := 0, pinned := false }).1.y
          = 0 + 0.5 * V1.STIFFNESS *
              ((10 - V1.targetDist ratSqrt { x := 0, y := 0 } { x := 0, y := 0 }) / 10) *
              (0 - 0)) ∧
      ((false = false) →
        (V1.relaxPair ratSqrt { x := 0, y := 0 } { x := 0, y := 0 }
            { x := 0, y := 0, vx := 0, vy := 0, pinned := false }
            { x := 10, y := 0, vx := 0, vy := 0, pinned := false }).2.x
          = 10 - 0.5 * V1.STIFFNESS *
              ((10 - V1.targetDist ratSqrt { x := 0, y := 0 } { x := 0, y := 0 }) / 10) *
              (10 - 0) ∧
        (V1.relaxPair ratSqrt { x := 0, y := 0 } { x := 0, y := 0 }
            { x := 0, y := 0, vx := 0, vy := 0, pinned := false }
            { x := 10, y := 0, vx := 0, vy := 0, pinned := false }).2.y
          = 0 - 0.5 * V1.STIFFNESS *
              ((10 - V1.targetDist ratSqrt { x := 0, y := 0 } { x := 0, y := 0 }) / 10) *
              (0 - 0)) ∧
      ((false = true) →
        (V1.relaxPair ratSqrt { x := 0, y := 0 } { x := 0, y := 0 }
            { x := 0, y := 0, vx := 0, vy := 0, pinned := false }
            { x := 10, y := 0, vx := 0, vy := 0, pinned := false }).1
          = { x := 0, y := 0, vx := 0, vy := 0, pinned := false }) ∧
      ((false = true) →
        (V1.relaxPair ratSqrt { x := 0, y := 0 } { x := 0, y := 0 }
            { x := 0, y := 0, vx := 0, vy := 0, pinned := false }
            { x := 10, y := 0, vx := 0, vy := 0, pinned := false }).2
          = { x := 10, y := 0, vx := 0, vy := 0, pinned := false }) ∧
      V1.STIFFNESS = 0.8) :=
  ⟨⟨by
      rw [show ((10 : ℚ) - 0) * (10 - 0) + (0 - 0) * (0 - 0) = 100 from by norm_num,
        ratSqrt_hundred], by norm_num⟩,
   C2_constraint_correction ratSqrt { x := 0, y := 0 } { x := 0, y := 0 } 0 10 10
     { x := 0, y := 0, vx := 0, vy := 0, pinned := false }
     { x := 10, y := 0, vx := 0, vy := 0, pinned := false }
     { x := 0, y := 0, oldX := 0, oldY := 0, pinned := false }
     { x := 10, y := 0, oldX := 10, oldY := 0, pinned := false }
     (by rw [show ((10 : ℚ) - 0) * (10 - 0) + (0 - 0) * (0 - 0) = 100 from by norm_num,
        ratSqrt_hundred])
     (by rw [show ((10 : ℚ) - 0) * (10 - 0) + (0 - 0) * (0 - 0) = 100 from by norm_num,
        ratSqrt_hundred])
     (by norm_num) (by norm_num)⟩

/-- C3: in both variants the target segment length used by the constraint
solver equals the straight-line distance between the two current endpoint
centers, divided by the segment count, times a constant slack factor strictly
greater than 1 (`1.2` for the explicit-velocity variant with 11 segments,
`1.1` for the Verlet variant with 10 segments), recomputed from the endpoints
supplied to the tick. -/
theorem C3_target_segment_length (sqrt : ℚ → ℚ) (s e : Position)
    (fromNote toNote : StickyNote) :
    (V1.targetDist sqrt s e
        = spec_targetSegmentLength (V1.totalDist sqrt s e) (V1.NUM_POINTS - 1) 1.2 ∧
      (1 : ℚ) < 1.2) ∧
    (V2.segmentLength sqrt fromNote toNote
        = spec_targetSegmentLength
            (sqrt (((getNoteCenter toNote).x - (getNoteCenter fromNote).x) ^ 2 +
              ((getNoteCenter toNote).y - (getNoteCenter fromNote).y) ^ 2))
            V2.NUM_SEGMENTS 1.1 ∧
      (1 : ℚ) < 1.1) := by
  refine ⟨⟨?_, by norm_num⟩, ⟨?_, by norm_num⟩⟩
  · unfold V1.targetDist spec_targetSegmentLength V1.NUM_POINTS
    norm_num
  · unfold V2.segmentLength spec_targetSegmentLength V2.NUM_SEGMENTS
    norm_num

/-- C4 counterexample: in the explicit-velocity variant, an interior particle
at rest (`vx = vy = 0`) at the origin ends the integration step at
`y = 0.49`, while the claimed advance `position + (damping*vx, damping*vy +
gravity)` would put it at `y = 0.5`: the code adds gravity to the stored
velocity before damping, so the gravity contribution is damped as well. -/
theorem C4_integration_cex :
    ((V1.integrate
        [{ x := 0, y := 0, vx := 0, vy := 0, pinned := true }
        , { x := 0, y := 0, vx := 0, vy := 0, pinned := false }
        , { x := 0, y := 0, vx := 0, vy := 0, pinned := false }])[1]?).map (fun p => p.y)
      = some (0.49 : ℚ) ∧
    (0 : ℚ) + V1.DAMPING * 0 + V1.GRAVITY = 0.5 ∧
    (0.49 : ℚ) ≠ 0.5 := by
  refine ⟨?_, by norm_num [V1.DAMPING, V1.GRAVITY], by norm_num⟩
  rw [v1_integrate_getElem?]
  rw [show ([{ x := 0, y := 0, vx := 0, vy := 0, pinned := true }
      , { x := 0, y := 0, vx := 0, vy := 0, pinned := false }
      , { x := 0, y := 0, vx := 0, vy := 0, pinned := false }] :
        List V1.PhysicsPoint)[1]?
      = some { x := 0, y := 0, vx := 0, vy := 0, pinned := false } from rfl]
  simp only [Option.map_some']
  rw [if_pos (show 1 ≤ 1 ∧ 1 < V1.NUM_POINTS - 1 from by norm_num [V1.NUM_POINTS])]
  congr 1
  show (0 : ℚ) + (0 + V1.GRAVITY) * V1.DAMPING = 0.49
  norm_num [V1.GRAVITY, V1.DAMPING]

/-- C4 (amended): on every tick, the integration step is applied to exactly
the interior indices.  In the Verlet variant it is exactly as the claim
states: the velocity implied by the change since the previous tick is damped
by a constant in `(0,1)` on both axes, a constant gravity is added to the
vertical axis only, the position advances by that amount, and the previous
position is updated.  In the explicit-velocity variant the velocity is the
stored velocity (not the change since the previous tick), and gravity is
added to the vertical velocity before damping, so the vertical advance is
`damping * (vy + gravity)` — the gravity contribution is damped as well. -/
theorem C4_integration_step (p : V1.PhysicsPoint) (q : V2.Point) :
    ((V2.integratePoint q).x = q.x + V2.DAMPING * (q.x - q.oldX) ∧
     (V2.integratePoint q).y = q.y + V2.DAMPING * (q.y - q.oldY) + V2.GRAVITY ∧
     (V2.integratePoint q).oldX = q.x ∧
     (V2.integratePoint q).oldY = q.y ∧
     (V2.integratePoint q).pinned = q.pinned ∧
     0 < V2.DAMPING ∧ V2.DAMPING < 1 ∧
     (∀ (pts : List V2.Point) (j : ℕ), (V2.integrate pts)[j]? = (pts[j]?).map (fun r =>
        if 1 ≤ j ∧ j < V2.NUM_SEGMENTS then V2.integratePoint r else r))) ∧
    ((V1.integratePoint p).x = p.x + V1.DAMPING * p.vx ∧
     (V1.integratePoint p).y = p.y + V1.DAMPING * (p.vy + V1.GRAVITY) ∧
     (V1.integratePoint p).vx = V1.DAMPING * p.vx ∧
     (V1.integratePoint p).vy = V1.DAMPING * (p.vy + V1.GRAVITY) ∧
     (V1.integratePoint p).pinned = p.pinned ∧
     0 < V1.DAMPING ∧ V1.DAMPING < 1 ∧
     (∀ (pts : List V1.PhysicsPoint) (j : ℕ), (V1.integrate pts)[j]? = (pts[j]?).map (fun r =>
        if 1 ≤ j ∧ j < V1.NUM_POINTS - 1 then V1.integratePoint r else r))) := by
  refine ⟨⟨?_, ?_, rfl, rfl, rfl, by norm_num [V2.DAMPING], by norm_num [V2.DAMPING],
      fun pts j => v2_integrate_getElem? pts j⟩,
    ⟨?_, ?_, ?_, ?_, rfl, by norm_num [V1.DAMPING], by norm_num [V1.DAMPING],
      fun pts j => v1_integrate_getElem? pts j⟩⟩
  · show q.x + (q.x - q.oldX) * V2.DAMPING = q.x + V2.DAMPING * (q.x - q.oldX)
    ring
  · show q.y + (q.y - q.oldY) * V2.DAMPING + V2.GRAVITY
      = q.y + V2.DAMPING * (q.y - q.oldY) + V2.GRAVITY
    ring
  · show p.x + p.vx * V1.DAMPING = p.x + V1.DAMPING * p.vx
    ring
  · show p.y + (p.vy + V1.GRAVITY) * V1.DAMPING = p.y + V1.DAMPING * (p.vy + V1.GRAVITY)
    ring
  · show p.vx * V1.DAMPING = V1.DAMPING * p.vx
    ring
  · show (p.vy + V1.GRAVITY) * V1.DAMPING = V1.DAMPING * (p.vy + V1.GRAVITY)
    ring

/-- C6: chain seeding in both variants: with `N` the segment count (11 for the
explicit-velocity variant, 10 for the Verlet one), exactly `N + 1` particles
are produced, particle `i` lies at `start + (i/N) * (endP - start)` (hence
particle `0` at `start` and particle `N` at `endP`), particles `0` and `N`
are the only pinned ones, and every particle has zero initial velocity
(Verlet: previous position equal to the current position). -/
theorem C6_chain_seeding (start endP : Position) :
    ((V1.initPoints start endP).length = (V1.NUM_POINTS - 1) + 1 ∧
     (∀ i : ℕ, i < V1.NUM_POINTS → ∃ p : V1.PhysicsPoint,
       (V1.initPoints start endP)[i]? = some p ∧
       p.x = start.x + (endP.x - start.x) * ((i : ℚ) / ((V1.NUM_POINTS : ℚ) - 1)) ∧
       p.y = start.y + (endP.y - start.y) * ((i : ℚ) / ((V1.NUM_POINTS : ℚ) - 1)) ∧
       p.vx = 0 ∧ p.vy = 0 ∧
       (p.pinned = true ↔ (i = 0 ∨ i = V1.NUM_POINTS - 1))) ∧
     (∃ p : V1.PhysicsPoint, (V1.initPoints start endP)[0]? = some p ∧
       p.x = start.x ∧ p.y = start.y) ∧
     (∃ p : V1.PhysicsPoint, (V1.initPoints start endP)[V1.NUM_POINTS - 1]? = some p ∧
       p.x = endP.x ∧ p.y = endP.y)) ∧
    ((V2.initPoints start endP).length = V2.NUM_SEGMENTS + 1 ∧
     (∀ i : ℕ, i < V2.NUM_SEGMENTS + 1 → ∃ p : V2.Point,
       (V2.initPoints start endP)[i]? = some p ∧
       p.x = start.x + (endP.x - start.x) * ((i : ℚ) / (V2.NUM_SEGMENTS : ℚ)) ∧
       p.y = start.y + (endP.y - start.y) * ((i : ℚ) / (V2.NUM_SEGMENTS : ℚ)) ∧
       p.oldX = p.x ∧ p.oldY = p.y ∧
       (p.pinned = true ↔ (i = 0 ∨ i = V2.NUM_SEGMENTS))) ∧
     (∃ p : V2.Point, (V2.initPoints start endP)[0]? = some p ∧
       p.x = start.x ∧ p.y = start.y) ∧
     (∃ p : V2.Point, (V2.initPoints start endP)[V2.NUM_SEGMENTS]? = some p ∧
       p.x = endP.x ∧ p.y = endP.y)) := by
  have hv1 : ∀ i : ℕ, i < V1.NUM_POINTS →
      (V1.initPoints start endP)[i]? = some
        { x := start.x + (endP.x - start.x) * ((i : ℚ) / ((V1.NUM_POINTS : ℚ) - 1))
        , y := start.y + (endP.y - start.y) * ((i : ℚ) / ((V1.NUM_POINTS : ℚ) - 1))
        , vx := 0, vy := 0, pinned := i == 0 || i == V1.NUM_POINTS - 1 } := by
    intro i hi
    rw [V1.initPoints, List.getElem?_map, List.getElem?_range hi]
    rfl
  have hv2 : ∀ i : ℕ, i < V2.NUM_SEGMENTS + 1 →
      (V2.initPoints start endP)[i]? = some
        { x := start.x + (endP.x - start.x) * ((i : ℚ) / (V2.NUM_SEGMENTS : ℚ))
        , y := start.y + (endP.y - start.y) * ((i : ℚ) / (V2.NUM_SEGMENTS : ℚ))
        , oldX := start.x + (endP.x - start.x) * ((i : ℚ) / (V2.NUM_SEGMENTS : ℚ))
        , oldY := start.y + (endP.y - start.y) * ((i : ℚ) / (V2.NUM_SEGMENTS : ℚ))
        , pinned := i == 0 || i == V2.NUM_SEGMENTS } := by
    intro i hi
    rw [V2.initPoints, List.getElem?_map, List.getElem?_range hi]
    rfl
  refine ⟨⟨?_, ?_, ?_, ?_⟩, ⟨?_, ?_, ?_, ?_⟩⟩
  · simp [V1.initPoints, V1.NUM_POINTS]
  · intro i hi
    exact ⟨_, hv1 i hi, rfl, rfl, rfl, rfl, by simp⟩
  · refine ⟨_, hv1 0 (by norm_num [V1.NUM_POINTS]), ?_, ?_⟩ <;> norm_num
  · refine ⟨_, hv1 (V1.NUM_POINTS - 1) (by norm_num [V1.NUM_POINTS]), ?_, ?_⟩
    · show start.x + (endP.x - start.x) *
        (((V1.NUM_POINTS - 1 : ℕ) : ℚ) / ((V1.NUM_POINTS : ℚ) - 1)) = endP.x
      rw [show (((V1.NUM_POINTS - 1 : ℕ) : ℚ) / ((V1.NUM_POINTS : ℚ) - 1)) = 1 from by
        norm_num [V1.NUM_POINTS]]
      ring
    · show start.y + (endP.y - start.y) *
        (((V1.NUM_POINTS - 1 : ℕ) : ℚ) / ((V1.NUM_POINTS : ℚ) - 1)) = endP.y
      rw [show (((V1.NUM_POINTS - 1 : ℕ) : ℚ) / ((V1.NUM_POINTS : ℚ) - 1)) = 1 from by
        norm_num [V1.NUM_POINTS]]
      ring
  · simp [V2.initPoints, V2.NUM_SEGMENTS]
  · intro i hi
    exact ⟨_, hv2 i hi, rfl, rfl, rfl, rfl, by simp⟩
  · refine ⟨_, hv2 0 (by norm_num), ?_, ?_⟩ <;> norm_num
  · refine ⟨_, hv2 V2.NUM_SEGMENTS (by omega), ?_, ?_⟩
    · show start.x + (endP.x - start.x) *
        (((V2.NUM_SEGMENTS : ℕ) : ℚ) / (V2.NUM_SEGMENTS : ℚ)) = endP.x
      rw [show (((V2.NUM_SEGMENTS : ℕ) : ℚ) / (V2.NUM_SEGMENTS : ℚ)) = 1 from by
        norm_num [V2.NUM_SEGMENTS]]
      ring
    · show start.y + (endP.y - start.y) *
        (((V2.NUM_SEGMENTS : ℕ) : ℚ) / (V2.NUM_SEGMENTS : ℚ)) = endP.y
      rw [show (((V2.NUM_SEGMENTS : ℕ) : ℚ) / (V2.NUM_SEGMENTS : ℚ)) = 1 from by
        norm_num [V2.NUM_SEGMENTS]]
      ring

/-- Witness for C6: the interior-particle formula instantiated at index 3 of
chains seeded between the two sample note centers. -/
theorem C6_chain_seeding_witness :
    (3 < V1.NUM_POINTS ∧ ∃ p : V1.PhysicsPoint,
      (V1.initPoints (getNoteCenter sampleNoteA) (getNoteCenter sampleNoteB))[3]? = some p ∧
      p.x = (getNoteCenter sampleNoteA).x +
        ((getNoteCenter sampleNoteB).x - (getNoteCenter sampleNoteA).x) *
          (((3 : ℕ) : ℚ) / ((V1.NUM_POINTS : ℚ) - 1)) ∧
      p.y = (getNoteCenter sampleNoteA).y +
        ((getNoteCenter sampleNoteB).y - (getNoteCenter sampleNoteA).y) *
          (((3 : ℕ) : ℚ) / ((V1.NUM_POINTS : ℚ) - 1)) ∧
      p.vx = 0 ∧ p.vy = 0 ∧
      (p.pinned = true ↔ ((3 : ℕ) = 0 ∨ (3 : ℕ) = V1.NUM_POINTS - 1))) ∧
    (3 < V2.NUM_SEGMENTS + 1 ∧ ∃ p : V2.Point,
      (V2.initPoints (getNoteCenter sampleNoteA) (getNoteCenter sampleNoteB))[3]? = some p ∧
      p.x = (getNoteCenter sampleNoteA).x +
        ((getNoteCenter sampleNoteB).x - (getNoteCenter sampleNoteA).x) *
          (((3 : ℕ) : ℚ) / (V2.NUM_SEGMENTS : ℚ)) ∧
      p.y = (getNoteCenter sampleNoteA).y +
        ((getNoteCenter sampleNoteB).y - (getNoteCenter sampleNoteA).y) *
          (((3 : ℕ) : ℚ) / (V2.NUM_SEGMENTS : ℚ)) ∧
      p.oldX = p.x ∧ p.oldY = p.y ∧
      (p.pinned = true ↔ ((3 : ℕ) = 0 ∨ (3 : ℕ) = V2.NUM_SEGMENTS))) :=
  ⟨⟨by norm_num [V1.NUM_POINTS],
    (C6_chain_seeding (getNoteCenter sampleNoteA) (getNoteCenter sampleNoteB)).1.2.1 3
      (by norm_num [V1.NUM_POINTS])⟩,
   ⟨by norm_num [V2.NUM_SEGMENTS],
    (C6_chain_seeding (getNoteCenter sampleNoteA) (getNoteCenter sampleNoteB)).2.2.1 3
      (by norm_num [V2.NUM_SEGMENTS])⟩⟩

/-- C5: zero-distance safety.  In both variants, a coincident adjacent pair
(distance exactly zero, for any square-root function with `sqrt 0 = 0`) is
left completely unchanged by the pair correction; and a full simulation tick
never divides by zero: for every input (coincident endpoints included) the
division-checked tick, which fails on any division by a zero distance,
succeeds and returns exactly the unchecked tick's result.  Over the rational
embedding every produced coordinate is therefore a well-defined rational. -/
theorem C5_zero_distance_safety (sqrt : ℚ → ℚ) (s e : Position) (segLen : ℚ)
    (p1 p2 : V1.PhysicsPoint) (q1 q2 : V2.Point)
    (fromNote toNote : StickyNote) (pts1 : List V1.PhysicsPoint) (pts2 : List V2.Point)
    (h0 : sqrt 0 = 0) (hpx : p1.x = p2.x) (hpy : p1.y = p2.y)
    (hqx : q1.x = q2.x) (hqy : q1.y = q2.y) :
    V1.relaxPair sqrt s e p1 p2 = (p1, p2) ∧
    V2.relaxPair sqrt segLen q1 q2 = (q1, q2) ∧
    V1.simulateChecked sqrt fromNote toNote pts1
      = some (V1.simulate sqrt fromNote toNote pts1) ∧
    V2.simulateChecked sqrt fromNote toNote pts2
      = some (V2.simulate sqrt fromNote toNote pts2) := by
  refine ⟨?_, ?_, ?_, ?_⟩
  · unfold V1.relaxPair
    dsimp only
    rw [hpx, hpy]
    rw [show (p2.x - p2.x) * (p2.x - p2.x) + (p2.y - p2.y) * (p2.y - p2.y) = 0 from by ring]
    rw [h0]
    norm_num
  · unfold V2.relaxPair
    dsimp only
    rw [hqx, hqy]
    rw [show (q2.x - q2.x) * (q2.x - q2.x) + (q2.y - q2.y) * (q2.y - q2.y) = 0 from by ring]
    rw [h0]
    norm_num
  · unfold V1.simulateChecked V1.simulate
    exact v1_relaxIterChecked_eq sqrt (getNoteCenter fromNote) (getNoteCenter toNote)
      V1.PASSES _
  · unfold V2.simulateChecked V2.simulate
    exact v2_relaxIterChecked_eq sqrt (V2.segmentLength sqrt fromNote toNote)
      V2.ITERATIONS _

/-- Witness for C5: coincident pairs at the shared center of `sampleNoteA` and
`sampleNoteC` (two notes with identical centers), the exact rational square
root, and the freshly seeded chains between those coincident endpoints. -/
theorem C5_zero_distance_safety_witness :
    ratSqrt 0 = 0 ∧
    (V1.relaxPair ratSqrt (getNoteCenter sampleNoteA) (getNoteCenter sampleNoteC)
        { x := 100, y := 100, vx := 0, vy := 0, pinned := false }
        { x := 100, y := 100, vx := 0, vy := 0, pinned := false }
      = ({ x := 100, y := 100, vx := 0, vy := 0, pinned := false },
         { x := 100, y := 100, vx := 0, vy := 0, pinned := false }) ∧
     V2.relaxPair ratSqrt 0
        { x := 100, y := 100, oldX := 100, oldY := 100, pinned := false }
        { x := 100, y := 100, oldX := 100, oldY := 100, pinned := false }
      = ({ x := 100, y := 100, oldX := 100, oldY := 100, pinned := false },
         { x := 100, y := 100, oldX := 100, oldY := 100, pinned := false }) ∧
     V1.simulateChecked ratSqrt sampleNoteA sampleNoteC
        (V1.initPoints (getNoteCenter sampleNoteA) (getNoteCenter sampleNoteC))
      = some (V1.simulate ratSqrt sampleNoteA sampleNoteC
          (V1.initPoints (getNoteCenter sampleNoteA) (getNoteCenter sampleNoteC))) ∧
     V2.simulateChecked ratSqrt sampleNoteA sampleNoteC
        (V2.initPoints (getNoteCenter sampleNoteA) (getNoteCenter sampleNoteC))
      = some (V2.simulate ratSqrt sampleNoteA sampleNoteC
          (V2.initPoints (getNoteCenter sampleNoteA) (getNoteCenter sampleNoteC)))) :=
  ⟨ratSqrt_zero,
   C5_zero_distance_safety ratSqrt (getNoteCenter sampleNoteA) (getNoteCenter sampleNoteC) 0
     { x := 100, y := 100, vx := 0, vy := 0, pinned := false }
     { x := 100, y := 100, vx := 0, vy := 0, pinned := false }
     { x := 100, y := 100, oldX := 100, oldY := 100, pinned := false }
     { x := 100, y := 100, oldX := 100, oldY := 100, pinned := false }
     sampleNoteA sampleNoteC
     (V1.initPoints (getNoteCenter sampleNoteA) (getNoteCenter sampleNoteC))
     (V2.initPoints (getNoteCenter sampleNoteA) (getNoteCenter sampleNoteC))
     ratSqrt_zero rfl rfl rfl rfl⟩

/-- C7: on any tick where either bound note identity is absent from the notes
collection, the stepper leaves the chain unchanged and the connection renders
nothing; this is not an error, and once both notes resolve again (and the
chain is non-empty) the stepper runs exactly one simulation tick and the
renderer produces the path geometry again.  Holds for both variants. -/
theorem C7_missing_endpoint (sqrt : ℚ → ℚ) (conn : Connection)
    (notes : List StickyNote) (hovered : Bool)
    (pts1 : List V1.PhysicsPoint) (pts2 : List V2.Point)
    (hmiss : findNote notes conn.fromNoteId = none ∨
      findNote notes conn.toNoteId = none) :
    (V1.stepConnection sqrt conn notes pts1 = pts1 ∧
     V1.render conn notes hovered pts1 = none ∧
     V2.stepConnection sqrt conn notes pts2 = pts2 ∧
     V2.render conn notes hovered pts2 = none) ∧
    (∀ (notes' : List StickyNote) (f t : StickyNote),
      findNote notes' conn.fromNoteId = some f →
      findNote notes' conn.toNoteId = some t →
      pts1.length ≠ 0 → pts2.length ≠ 0 →
      V1.stepConnection sqrt conn notes' pts1 = V1.simulate sqrt f t pts1 ∧
      V2.stepConnection sqrt conn notes' pts2 = V2.simulate sqrt f t pts2 ∧
      V1.render conn notes' hovered pts1
        = some { hitPath := pathOf (pts1.map V1.posXY), hitWidth := 20
               , strokePath := pathOf (pts1.map V1.posXY)
               , strokeWidth := if hovered then 3 else 2 } ∧
      V2.render conn notes' hovered pts2
        = some { hitPath := pathOf (pts2.map V2.posXY), hitWidth := 20
               , strokePath := pathOf (pts2.map V2.posXY)
               , strokeWidth := if hovered then 3 else 2 }) := by
  constructor
  · refine ⟨?_, ?_, ?_, ?_⟩
    · unfold V1.stepConnection
      rcases hmiss with h | h
      · rw [h]
      · cases hf : findNote notes conn.fromNoteId <;> rw [h]
    · unfold V1.render
      rcases hmiss with h | h
      · rw [h]
      · cases hf : findNote notes conn.fromNoteId <;> rw [h]
    · unfold V2.stepConnection
      rcases hmiss with h | h
      · rw [h]
      · cases hf : findNote notes conn.fromNoteId <;> rw [h]
    · unfold V2.render
      rcases hmiss with h | h
      · rw [h]
      · cases hf : findNote notes conn.fromNoteId <;> rw [h]
  · intro notes' f t hf ht h1 h2
    refine ⟨?_, ?_, ?_, ?_⟩
    · unfold V1.stepConnection
      rw [hf, ht]
      dsimp only
      rw [if_neg h1]
    · unfold V2.stepConnection
      rw [hf, ht]
      dsimp only
      rw [if_neg h2]
    · unfold V1.render
      rw [hf, ht]
      dsimp only
      rw [if_neg h1]
    · unfold V2.render
      rw [hf, ht]
      dsimp only
      rw [if_neg h2]

/-- Witness for C7: the sample connection with an empty notes list (both
identities unresolvable), then the same connection resolved against the two
sample notes. -/
theorem C7_missing_endpoint_witness :
    (findNote [] sampleConnection.fromNoteId = none) ∧
    (V1.stepConnection ratSqrt sampleConnection []
        (V1.initPoints (getNoteCenter sampleNoteA) (getNoteCenter sampleNoteB))
      = V1.initPoints (getNoteCenter sampleNoteA) (getNoteCenter sampleNoteB) ∧
     V1.render sampleConnection [] true
        (V1.initPoints (getNoteCenter sampleNoteA) (getNoteCenter sampleNoteB)) = none ∧
     V2.stepConnection ratSqrt sampleConnection []
        (V2.initPoints (getNoteCenter sampleNoteA) (getNoteCenter sampleNoteB))
      = V2.initPoints (getNoteCenter sampleNoteA) (getNoteCenter sampleNoteB) ∧
     V2.render sampleConnection [] true
        (V2.initPoints (getNoteCenter sampleNoteA) (getNoteCenter sampleNoteB)) = none) ∧
    (findNote [sampleNoteA, sampleNoteB] sampleConnection.fromNoteId = some sampleNoteA ∧
     findNote [sampleNoteA, sampleNoteB] sampleConnection.toNoteId = some sampleNoteB ∧
     (V1.initPoints (getNoteCenter sampleNoteA) (getNoteCenter sampleNoteB)).length ≠ 0 ∧
     (V2.initPoints (getNoteCenter sampleNoteA) (getNoteCenter sampleNoteB)).length ≠ 0) ∧
    (V1.stepConnection ratSqrt sampleConnection [sampleNoteA, sampleNoteB]
        (V1.initPoints (getNoteCenter sampleNoteA) (getNoteCenter sampleNoteB))
      = V1.simulate ratSqrt sampleNoteA sampleNoteB
          (V1.initPoints (getNoteCenter sampleNoteA) (getNoteCenter sampleNoteB)) ∧
     V2.stepConnection ratSqrt sampleConnection [sampleNoteA, sampleNoteB]
        (V2.initPoints (getNoteCenter sampleNoteA) (getNoteCenter sampleNoteB))
      = V2.simulate ratSqrt sampleNoteA sampleNoteB
          (V2.initPoints (getNoteCenter sampleNoteA) (getNoteCenter sampleNoteB)) ∧
     V1.render sampleConnection [sampleNoteA, sampleNoteB] true
        (V1.initPoints (getNoteCenter sampleNoteA) (getNoteCenter sampleNoteB))
      = some { hitPath := pathOf ((V1.initPoints (getNoteCenter sampleNoteA)
                  (getNoteCenter sampleNoteB)).map V1.posXY)
             , hitWidth := 20
             , strokePath := pathOf ((V1.initPoints (getNoteCenter sampleNoteA)
                  (getNoteCenter sampleNoteB)).map V1.posXY)
             , strokeWidth := if true then 3 else 2 } ∧
     V2.render sampleConnection [sampleNoteA, sampleNoteB] true
        (V2.initPoints (getNoteCenter sampleNoteA) (getNoteCenter sampleNoteB))
      = some { hitPath := pathOf ((V2.initPoints (getNoteCenter sampleNoteA)
                  (getNoteCenter sampleNoteB)).map V2.posXY)
             , hitWidth := 20
             , strokePath := pathOf ((V2.initPoints (getNoteCenter sampleNoteA)
                  (getNoteCenter sampleNoteB)).map V2.posXY)
             , strokeWidth := if true then 3 else 2 }) :=
  ⟨rfl,
   (C7_missing_endpoint ratSqrt sampleConnection [] true
     (V1.initPoints (getNoteCenter sampleNoteA) (getNoteCenter sampleNoteB))
     (V2.initPoints (getNoteCenter sampleNoteA) (getNoteCenter sampleNoteB))
     (Or.inl rfl)).1,
   ⟨rfl, rfl, by decide, by decide⟩,
   (C7_missing_endpoint ratSqrt sampleConnection [] true
     (V1.initPoints (getNoteCenter sampleNoteA) (getNoteCenter sampleNoteB))
     (V2.initPoints (getNoteCenter sampleNoteA) (getNoteCenter sampleNoteB))
     (Or.inl rfl)).2
     [sampleNoteA, sampleNoteB] sampleNoteA sampleNoteB rfl rfl
     (by decide) (by decide)⟩

/-- C8: rendering contract.  With a live chain (both notes resolved, chain
non-empty), the renderer produces the wider invisible hit path and the visible
stroke from exactly the same path geometry, that geometry is the polyline
through all published points in order, and the visible stroke width is
strictly smaller than the hit width.  The published point sequence has
segment-count + 1 points: seeding produces that many and every tick preserves
the count.  Holds for both variants. -/
theorem C8_rendering_contract (sqrt : ℚ → ℚ) (s e : Position)
    (conn : Connection) (notes : List StickyNote) (hovered : Bool)
    (pts1 : List V1.PhysicsPoint) (pts2 : List V2.Point)
    (fromNote toNote : StickyNote)
    (hf : findNote notes conn.fromNoteId = some fromNote)
    (ht : findNote notes conn.toNoteId = some toNote)
    (h1 : pts1.length ≠ 0) (h2 : pts2.length ≠ 0) :
    (∃ r : RenderedPaths, V1.render conn notes hovered pts1 = some r ∧
       r.hitPath = r.strokePath ∧
       r.strokePath = polylineSpec (pts1.map V1.posXY) ∧
       r.strokeWidth < r.hitWidth) ∧
    (∃ r : RenderedPaths, V2.render conn notes hovered pts2 = some r ∧
       r.hitPath = r.strokePath ∧
       r.strokePath = polylineSpec (pts2.map V2.posXY) ∧
       r.strokeWidth < r.hitWidth) ∧
    (V1.simulate sqrt fromNote toNote pts1).length = pts1.length ∧
    (V2.simulate sqrt fromNote toNote pts2).length = pts2.length ∧
    ((V1.initPoints s e).map V1.posXY).length = (V1.NUM_POINTS - 1) + 1 ∧
    ((V2.initPoints s e).map V2.posXY).length = V2.NUM_SEGMENTS + 1 := by
  refine ⟨?_, ?_, v1_simulate_length sqrt fromNote toNote pts1,
    v2_simulate_length sqrt fromNote toNote pts2, ?_, ?_⟩
  · refine ⟨{ hitPath := pathOf (pts1.map V1.posXY), hitWidth := 20
            , strokePath := pathOf (pts1.map V1.posXY)
            , strokeWidth := if hovered then 3 else 2 },
      ?_, rfl, pathOf_eq_polylineSpec (pts1.map V1.posXY), ?_⟩
    · unfold V1.render
      rw [hf, ht]
      dsimp only
      rw [if_neg h1]
    · show (if hovered = true then (3 : ℚ) else 2) < 20
      cases hovered <;> norm_num
  · refine ⟨{ hitPath := pathOf (pts2.map V2.posXY), hitWidth := 20
            , strokePath := pathOf (pts2.map V2.posXY)
            , strokeWidth := if hovered then 3 else 2 },
      ?_, rfl, pathOf_eq_polylineSpec (pts2.map V2.posXY), ?_⟩
    · unfold V2.render
      rw [hf, ht]
      dsimp only
      rw [if_neg h2]
    · show (if hovered = true then (3 : ℚ) else 2) < 20
      cases hovered <;> norm_num
  · simp [V1.initPoints, V1.NUM_POINTS]
  · simp [V2.initPoints, V2.NUM_SEGMENTS]

/-- Witness for C8: the sample connection rendered against the two sample
notes with freshly seeded chains. -/
theorem C8_rendering_contract_witness :
    (findNote [sampleNoteA, sampleNoteB] sampleConnection.fromNoteId = some sampleNoteA ∧
     findNote [sampleNoteA, sampleNoteB] sampleConnection.toNoteId = some sampleNoteB ∧
     (V1.initPoints (getNoteCenter sampleNoteA) (getNoteCenter sampleNoteB)).length ≠ 0 ∧
     (V2.initPoints (getNoteCenter sampleNoteA) (getNoteCenter sampleNoteB)).length ≠ 0) ∧
    ((∃ r : RenderedPaths,
       V1.render sampleConnection [sampleNoteA, sampleNoteB] false
           (V1.initPoints (getNoteCenter sampleNoteA) (getNoteCenter sampleNoteB)) = some r ∧
       r.hitPath = r.strokePath ∧
       r.strokePath = polylineSpec
         ((V1.initPoints (getNoteCenter sampleNoteA) (getNoteCenter sampleNoteB)).map V1.posXY) ∧
       r.strokeWidth < r.hitWidth) ∧
     (∃ r : RenderedPaths,
       V2.render sampleConnection [sampleNoteA, sampleNoteB] false
           (V2.initPoints (getNoteCenter sampleNoteA) (getNoteCenter sampleNoteB)) = some r ∧
       r.hitPath = r.strokePath ∧
       r.strokePath = polylineSpec
         ((V2.initPoints (getNoteCenter sampleNoteA) (getNoteCenter sampleNoteB)).map V2.posXY) ∧
       r.strokeWidth < r.hitWidth) ∧
     (V1.simulate ratSqrt sampleNoteA sampleNoteB
        (V1.initPoints (getNoteCenter sampleNoteA) (getNoteCenter sampleNoteB))).length
       = (V1.initPoints (getNoteCenter sampleNoteA) (getNoteCenter sampleNoteB)).length ∧
     (V2.simulate ratSqrt sampleNoteA sampleNoteB
        (V2.initPoints (getNoteCenter sampleNoteA) (getNoteCenter sampleNoteB))).length
       = (V2.initPoints (getNoteCenter sampleNoteA) (getNoteCenter sampleNoteB)).length ∧
     ((V1.initPoints (getNoteCenter sampleNoteA) (getNoteCenter sampleNoteB)).map
        V1.posXY).length = (V1.NUM_POINTS - 1) + 1 ∧
     ((V2.initPoints (getNoteCenter sampleNoteA) (getNoteCenter sampleNoteB)).map
        V2.posXY).length = V2.NUM_SEGMENTS + 1) :=
  ⟨⟨rfl, rfl, by decide, by decide⟩,
   C8_rendering_contract ratSqrt (getNoteCenter sampleNoteA) (getNoteCenter sampleNoteB)
     sampleConnection [sampleNoteA, sampleNoteB] false
     (V1.initPoints (getNoteCenter sampleNoteA) (getNoteCenter sampleNoteB))
     (V2.initPoints (getNoteCenter sampleNoteA) (getNoteCenter sampleNoteB))
     sampleNoteA sampleNoteB rfl rfl (by decide) (by decide)⟩

/-- C9: deleting a note removes exactly the notes with that id and exactly the
connections that reference it on either side, preserving the relative order of
everything else and leaving the pending-connection state and z-index counter
untouched; afterwards no surviving connection references the deleted id. -/
theorem C9_delete_cascade (id : String) (w : Workspace) :
    (∀ n : StickyNote, n ∈ (deleteNote id w).notes ↔ (n ∈ w.notes ∧ n.id ≠ id)) ∧
    (∀ c : Connection, c ∈ (deleteNote id w).connections ↔
      (c ∈ w.connections ∧ c.fromNoteId ≠ id ∧ c.toNoteId ≠ id)) ∧
    (deleteNote id w).notes.Sublist w.notes ∧
    (deleteNote id w).connections.Sublist w.connections ∧
    (∀ c ∈ (deleteNote id w).connections, c.fromNoteId ≠ id ∧ c.toNoteId ≠ id) ∧
    (deleteNote id w).connectingFrom = w.connectingFrom ∧
    (deleteNote id w).maxZIndex = w.maxZIndex := by
  refine ⟨?_, ?_, ?_, ?_, ?_, rfl, rfl⟩
  · intro n
    show n ∈ w.notes.filter (fun note => note.id != id) ↔ _
    rw [List.mem_filter]
    simp [bne_iff_ne]
  · intro c
    show c ∈ w.connections.filter (fun conn =>
      conn.fromNoteId != id && conn.toNoteId != id) ↔ _
    rw [List.mem_filter]
    simp [bne_iff_ne]
  · exact List.filter_sublist w.notes
  · exact List.filter_sublist w.connections
  · intro c hc
    have h := List.of_mem_filter hc
    simpa [bne_iff_ne] using h

/-- C10 counterexample: with the pending id the empty string (JS falsy — the
source's `if (connectingFrom && ...)` skips the whole block), completing
toward `"b"` appends nothing even though the pending id differs from `"b"`
and no connection between the pair exists, contradicting the claim's
"otherwise it appends exactly one new connection". -/
theorem C10_empty_pending_cex :
    ({ notes := [], connections := [], connectingFrom := some "", maxZIndex := 1 }
        : Workspace).connectingFrom = some "" ∧
    ("" : String) ≠ "b" ∧
    connectionExists
      ({ notes := [], connections := [], connectingFrom := some "", maxZIndex := 1 }
        : Workspace).connections "" "b" = false ∧
    (completeConnection "g" "b"
      { notes := [], connections := [], connectingFrom := some "", maxZIndex := 1 }).connections
      = [] ∧
    ([] : List Connection) ≠
      [] ++ [{ id := "g", fromNoteId := "", toNoteId := "b" }] :=
  ⟨rfl, by decide, rfl, rfl, by simp⟩

/-- C10 (implicit, amended): completing a connection from pending note `A` to
note `B` leaves the connections list unchanged when `A = B`, when a connection
between `A` and `B` already exists in either orientation, or when `A` is the
empty string (falsy in JS, so the source's `connectingFrom &&` guard treats it
as no pending connection); otherwise it appends exactly one connection
`(fromNoteId = A, toNoteId = B)`.  In every case the pending `connectingFrom`
state is reset to `none`.  Consequently every workspace state reachable from
the empty workspace through the hook operations has no self-loop connection
and no two connections linking the same unordered pair of notes. -/
theorem C10_connection_uniqueness (genId A B : String) (w : Workspace)
    (hw : w.connectingFrom = some A) :
    ((A = B → (completeConnection genId B w).connections = w.connections) ∧
     (connectionExists w.connections A B = true →
       (completeConnection genId B w).connections = w.connections) ∧
     (A = "" → (completeConnection genId B w).connections = w.connections) ∧
     (A ≠ "" → A ≠ B → connectionExists w.connections A B = false →
       (completeConnection genId B w).connections
         = w.connections ++ [{ id := genId, fromNoteId := A, toNoteId := B }]) ∧
     (completeConnection genId B w).connectingFrom = none) ∧
    (∀ s : Workspace, Reachable s → ConnectionsOk s.connections) := by
  refine ⟨⟨?_, ?_, ?_, ?_, ?_⟩, fun s hs => reachable_connectionsOk s hs⟩
  · intro hab
    subst hab
    unfold completeConnection
    rw [hw]
    dsimp only
    rw [if_neg (by simp)]
  · intro hex
    unfold completeConnection
    rw [hw]
    dsimp only
    by_cases hguard : (A != "" && A != B) = true
    · rw [if_pos hguard, if_neg (by simp [hex])]
    · rw [if_neg hguard]
  · intro hemp
    subst hemp
    unfold completeConnection
    rw [hw]
    dsimp only
    rw [if_neg (by simp)]
  · intro hne hab hex
    unfold completeConnection
    rw [hw]
    dsimp only
    rw [if_pos (by simp [bne_iff_ne, hne, hab]), if_pos (by simp [hex])]
  · unfold completeConnection
    rw [hw]
    dsimp only
    split
    · split <;> rfl
    · rfl

/-- Witness for C10: the sample workspace (pending connection from `"a"`, no
connections yet), completing toward `"b"`. -/
theorem C10_connection_uniqueness_witness :
    sampleWorkspace.connectingFrom = some "a" ∧
    ((("a" : String) = "b" →
       (completeConnection "g" "b" sampleWorkspace).connections
         = sampleWorkspace.connections) ∧
     (connectionExists sampleWorkspace.connections "a" "b" = true →
       (completeConnection "g" "b" sampleWorkspace).connections
         = sampleWorkspace.connections) ∧
     (("a" : String) = "" →
       (completeConnection "g" "b" sampleWorkspace).connections
         = sampleWorkspace.connections) ∧
     (("a" : String) ≠ "" → ("a" : String) ≠ "b" →
       connectionExists sampleWorkspace.connections "a" "b" = false →
       (completeConnection "g" "b" sampleWorkspace).connections
         = sampleWorkspace.connections ++
             [{ id := "g", fromNoteId := "a", toNoteId := "b" }]) ∧
     (completeConnection "g" "b" sampleWorkspace).connectingFrom = none) ∧
    (∀ s : Workspace, Reachable s → ConnectionsOk s.connections) :=
  ⟨rfl,
   (C10_connection_uniqueness "g" "a" "b" sampleWorkspace rfl).1,
   (C10_connection_uniqueness "g" "a" "b" sampleWorkspace rfl).2⟩

end ICNotes
